import Mathlib

/-
  Verification of the gdrive-explorer size-aggregation engine and cache.

  Shallow embedding of:
    - src/gdrive_explorer/models.py     (DriveItem, DriveStructure)
    - src/gdrive_explorer/cache.py      (DriveCache)
    - src/gdrive_explorer/calculator.py (DriveCalculator)

  Conventions used throughout:
    - Python `datetime` values are modelled as `Int` timestamps in seconds;
      `timedelta(hours = h)` is `h * 3600` seconds, and the float comparison
      `(now - t).total_seconds() / 3600 < ttl_hours` is the exact integer
      comparison `now - t < ttl_hours * 3600` since `ttl_hours : int`.
    - Python dicts are insertion-ordered association lists; assignment to an
      existing key keeps its position (`assocInsert`).
    - A `DriveItem.children` list holds references to objects that live in the
      structure's `all_items` dict; we model it as the list of child IDs,
      resolved through `all_items` at each use.
    - Pickled blobs are modelled as `Option` of the decoded value; `none`
      stands for bytes whose deserialization raises.
    - Logging calls and progress callbacks have no effect on the modelled
      state and are dropped.
-/

namespace GDrive

/-- models.py `ItemType`: file/folder type enumeration. -/
inductive ItemType where
  | file
  | folder
  | google_doc
  | google_sheet
  | google_slide
  | google_form
  | google_drawing
  | unknown
deriving DecidableEq, Repr

/-- models.py `DriveItem`: one file or folder.  Fields that the modelled
operations never read (web links, sharing flags, creation time) are omitted;
`children` holds the IDs of the child objects (the objects themselves live in
`DriveStructure.all_items`). -/
structure DriveItem where
  id : String
  name : String
  type : ItemType
  mime_type : String := ""
  size : Int := 0
  parent_ids : List String := []
  modified_time : Option Int := none
  path : String := ""
  children : List String := []
  calculated_size : Option Int := none
  file_count : Int := 0
  folder_count : Int := 0
  last_scanned : Option Int := none
  scan_complete : Bool := false
deriving DecidableEq, Repr

/-- models.py `DriveItem.is_folder`. -/
def DriveItem.is_folder (it : DriveItem) : Bool :=
  it.type == ItemType.folder

/-- Python `str.lstrip("/")`: drop leading slashes. -/
def lstripSlash (s : String) : String :=
  ⟨s.data.dropWhile (fun c => c == '/')⟩

/-- models.py `DriveItem.add_child` (lines 108-116).  The source mutates both
the parent (appending to `children`) and the child (setting `path`); we return
the updated pair.  `ValueError` on non-folders becomes `Except.error`. -/
def DriveItem.add_child (parent child : DriveItem) :
    Except String (DriveItem × DriveItem) :=
  if !parent.is_folder then
    Except.error "Cannot add children to non-folder items"
  else if parent.children.contains child.id then
    Except.ok (parent, child)
  else
    Except.ok ({ parent with children := parent.children ++ [child.id] },
               { child with path := lstripSlash (parent.path ++ "/" ++ child.name) })

/-- Association-list lookup by key (Python dict read / SQL SELECT by id). -/
def assocFind {α : Type} (l : List (String × α)) (k : String) : Option α :=
  (l.find? (fun p => p.1 == k)).map (fun p => p.2)

/-- Association-list write (Python dict assignment / SQL INSERT OR REPLACE):
an existing key keeps its position, a new key is appended. -/
def assocInsert {α : Type} (l : List (String × α)) (k : String) (v : α) :
    List (String × α) :=
  if l.any (fun p => p.1 == k) then
    l.map (fun p => if p.1 == k then (p.1, v) else p)
  else
    l ++ [(k, v)]

/-- Association-list delete by key (SQL DELETE WHERE id = k). -/
def assocErase {α : Type} (l : List (String × α)) (k : String) :
    List (String × α) :=
  l.filter (fun p => !(p.1 == k))

/-- models.py `DriveStructure`: the complete snapshot.  `root_folders`,
`root_files` hold item IDs; `all_items` is the insertion-ordered ID map. -/
structure DriveStructure where
  root_folders : List String := []
  root_files : List String := []
  all_items : List (String × DriveItem) := []
  total_files : Int := 0
  total_folders : Int := 0
  total_size : Int := 0
  scan_timestamp : Option Int := none
  scan_complete : Bool := false
deriving DecidableEq, Repr

/-- models.py `DriveStructure.add_item` (lines 235-243). -/
def DriveStructure.add_item (s : DriveStructure) (item : DriveItem) :
    DriveStructure :=
  let s' := { s with all_items := assocInsert s.all_items item.id item }
  if item.is_folder then
    { s' with total_folders := s'.total_folders + 1 }
  else
    { s' with total_files := s'.total_files + 1,
              total_size := s'.total_size + item.size }

/-- models.py `DriveStructure.get_item`. -/
def lookupItem (s : DriveStructure) (item_id : String) : Option DriveItem :=
  assocFind s.all_items item_id

/-- Mutation of the (shared) item object with a given ID: every dict entry
holding that key is updated in place. -/
def updateItem (s : DriveStructure) (item_id : String)
    (f : DriveItem → DriveItem) : DriveStructure :=
  { s with all_items :=
      s.all_items.map (fun p => if p.1 == item_id then (p.1, f p.2) else p) }

/- ===================== cache.py : DriveCache ===================== -/

/-- One row of the `drive_items` table: serialized payload (`none` stands for
a blob whose deserialization raises), expiry timestamp, payload size. -/
structure CachedItemRow where
  data : Option DriveItem
  expires_at : Int
  size_bytes : Int := 0
deriving DecidableEq, Repr

/-- One row of the `drive_structures` table, with the extra queryable
scan-metadata columns of schema version 2. -/
structure CachedStructRow where
  data : Option DriveStructure
  expires_at : Int
  size_bytes : Int := 0
  scan_complete : Bool := false
  total_files : Int := 0
  total_folders : Int := 0
  scan_errors : Int := 0
deriving DecidableEq, Repr

/-- cache.py `DriveCache`: the SQLite store (two tables plus metadata),
the config-driven `enabled` flag and TTL. -/
structure DriveCache where
  enabled : Bool
  ttl_hours : Int
  items : List (String × CachedItemRow) := []
  structures : List (String × CachedStructRow) := []
  metadata : List (String × String) := []
deriving DecidableEq, Repr

/-- cache.py `DriveCache._is_expired` (lines 213-219): strictly past expiry. -/
def is_expired (now expires_at : Int) : Bool :=
  now > expires_at

/-- cache.py `DriveCache._calculate_expiry` (lines 209-211). -/
def calculate_expiry (now : Int) (c : DriveCache) : Int :=
  now + c.ttl_hours * 3600

/-- cache.py `DriveCache.cache_item` (lines 221-251). -/
def cache_item (now : Int) (c : DriveCache) (item : DriveItem) :
    Bool × DriveCache :=
  if !c.enabled then
    (false, c)
  else
    let row : CachedItemRow :=
      { data := some item, expires_at := calculate_expiry now c }
    (true, { c with items := assocInsert c.items item.id row })

/-- cache.py `DriveCache.get_item` (lines 253-286): absent or expired rows
yield `none`; an expired row is deleted as a side effect; a row whose blob
fails to deserialize yields `none` with no state change (the exception is
caught and logged). -/
def get_item (now : Int) (c : DriveCache) (item_id : String) :
    Option DriveItem × DriveCache :=
  if !c.enabled then
    (none, c)
  else
    match assocFind c.items item_id with
    | none => (none, c)
    | some row =>
      if is_expired now row.expires_at then
        (none, { c with items := assocErase c.items item_id })
      else
        (row.data, c)

/-- cache.py `DriveCache.cache_structure` (lines 288-325). -/
def cache_structure (now : Int) (c : DriveCache) (st : DriveStructure)
    (structure_id : String) : Bool × DriveCache :=
  if !c.enabled then
    (false, c)
  else
    let row : CachedStructRow :=
      { data := some st, expires_at := calculate_expiry now c,
        scan_complete := st.scan_complete, total_files := st.total_files,
        total_folders := st.total_folders, scan_errors := 0 }
    (true, { c with structures := assocInsert c.structures structure_id row })

/-- cache.py `DriveCache.get_structure` (lines 327-360). -/
def get_structure (now : Int) (c : DriveCache) (structure_id : String) :
    Option DriveStructure × DriveCache :=
  if !c.enabled then
    (none, c)
  else
    match assocFind c.structures structure_id with
    | none => (none, c)
    | some row =>
      if is_expired now row.expires_at then
        (none, { c with structures := assocErase c.structures structure_id })
      else
        (row.data, c)

/-- cache.py `DriveCache.invalidate_item` (lines 362-386). -/
def invalidate_item (c : DriveCache) (item_id : String) :
    Bool × DriveCache :=
  if !c.enabled then
    (false, c)
  else
    let hit := c.items.any (fun p => p.1 == item_id)
    (hit, { c with items := assocErase c.items item_id })

/-- cache.py `DriveCache.clear_expired` (lines 388-419): delete the rows of
both tables whose expiry is strictly before `now`, return how many. -/
def clear_expired (now : Int) (c : DriveCache) : Int × DriveCache :=
  if !c.enabled then
    (0, c)
  else
    let deadItems := c.items.filter (fun p => p.2.expires_at < now)
    let deadStructs := c.structures.filter (fun p => p.2.expires_at < now)
    ((deadItems.length : Int) + (deadStructs.length : Int),
     { c with items := c.items.filter (fun p => !(p.2.expires_at < now)),
              structures := c.structures.filter (fun p => !(p.2.expires_at < now)) })

/-- cache.py `DriveCache.clear_all` (lines 421-442). -/
def clear_all (c : DriveCache) : Bool × DriveCache :=
  if !c.enabled then
    (false, c)
  else
    (true, { c with items := [], structures := [], metadata := [] })

/- ===================== calculator.py : DriveCalculator ===================== -/

/-- config.py cache section: the two fields this core consumes. -/
structure CacheConfig where
  enabled : Bool
  ttl_hours : Int
deriving DecidableEq, Repr

/-- calculator.py run statistics (`_reset_stats`, lines 451-461). -/
structure CalcStats where
  processed_items : Nat := 0
  total_size_calculated : Int := 0
  errors_encountered : Nat := 0
  permission_errors : Nat := 0
  rate_limit_errors : Nat := 0
  cache_hits : Nat := 0
  api_calls : Nat := 0
deriving DecidableEq, Repr

/-- Mutable calculator state: statistics, the per-run memo
`_calculated_folders`, the cycle-guard set `_processing_folders`, and the
persistent cache object. -/
structure CalcState where
  stats : CalcStats := {}
  calculated_folders : List (String × Int) := []
  processing_folders : List String := []
  cache : DriveCache
deriving DecidableEq, Repr

/-- calculator.py exception taxonomy (lines 20-32): `PermissionError`,
`RateLimitError`, and any other exception. -/
inductive CalcErr where
  | permission
  | rateLimit
  | general
deriving DecidableEq, Repr

/-- calculator.py `DriveCalculator._should_recalculate` (lines 402-428).
`folder.children` are resolved through the live structure's ID map. -/
def should_recalculate (cfg : CacheConfig) (now : Int) (s : DriveStructure)
    (folder : DriveItem) : Bool :=
  if folder.calculated_size.isNone then
    true
  else
    match folder.last_scanned with
    | none => false
    | some ls =>
      if now - ls < cfg.ttl_hours * 3600 then
        false
      else
        folder.children.any (fun cid =>
          match lookupItem s cid with
          | some child =>
            match child.modified_time with
            | some mt => mt > ls
            | none => false
          | none => false)

/-- Result of one aggregation call: a raised exception carries the mutated
state with it (Python object attributes survive an exception), a normal
return carries the computed size. -/
abbrev CalcResult :=
  Except (CalcErr × DriveStructure × CalcState) (Int × DriveStructure × CalcState)

/-- calculator.py `_calculate_folder_size_recursive`, first children loop
(lines 206-223): recurse into child folders, accumulate file sizes and direct
counts.  `recurse` is the recursive aggregation call; child IDs absent from
the map are skipped. -/
def children_pass (recurse : String → DriveStructure → CalcState → CalcResult) :
    List String → Int → Int → Int → DriveStructure → CalcState →
    Except (CalcErr × DriveStructure × CalcState)
      (Int × Int × Int × DriveStructure × CalcState)
  | [], total_size, file_count, folder_count, s, cs =>
    Except.ok (total_size, file_count, folder_count, s, cs)
  | cid :: rest, total_size, file_count, folder_count, s, cs =>
    match lookupItem s cid with
    | none =>
      children_pass recurse rest total_size file_count folder_count s cs
    | some child =>
      if child.is_folder then
        match recurse cid s cs with
        | Except.error e => Except.error e
        | Except.ok (child_size, s', cs') =>
          children_pass recurse rest (total_size + child_size) file_count
            (folder_count + 1) s' cs'
      else
        children_pass recurse rest (total_size + child.size) (file_count + 1)
          folder_count s cs

/-- calculator.py `_calculate_folder_size_recursive`, second children loop
(lines 225-229): add each direct child folder's recursive counts once. -/
def nested_counts (s : DriveStructure) (children : List String)
    (file_count folder_count : Int) : Int × Int :=
  children.foldl
    (fun acc cid =>
      match lookupItem s cid with
      | some child =>
        if child.is_folder then
          (acc.1 + child.file_count, acc.2 + child.folder_count)
        else acc
      | none => acc)
    (file_count, folder_count)

/-- calculator.py `DriveCalculator._calculate_folder_size_recursive`
(lines 158-254), with a fault-injection oracle `fails`: if
`fails folder_id = some e` the aggregation of that folder raises `e` (this
models a folder whose processing always raises, as in the spec's
partial-failure scenario; the pure program is `fails = fun _ => none`).
`fuel` bounds the recursion depth (a model artifact: the exhausted case
returns 0 without touching anything; every theorem below either supplies
ample fuel or does not depend on the exhausted case). -/
def calculate_folder_size_recursive (fails : String → Option CalcErr)
    (cfg : CacheConfig) (now : Int) :
    Nat → String → DriveStructure → CalcState → CalcResult
  | 0, _, s, cs => Except.ok (0, s, cs)
  | Nat.succ fuel, folder_id, s, cs =>
    -- cycle guard (lines 169-171)
    if cs.processing_folders.contains folder_id then
      Except.ok (0, s, cs)
    else
      match fails folder_id with
      | some e => Except.error (e, s, cs)
      | none =>
        -- run memo (lines 173-176)
        match assocFind cs.calculated_folders folder_id with
        | some v =>
          Except.ok (v, s,
            { cs with stats :=
                { cs.stats with cache_hits := cs.stats.cache_hits + 1 } })
        | none =>
          match lookupItem s folder_id with
          | none => Except.ok (0, s, cs)
          | some folder =>
            -- persistent cache check (lines 178-190)
            let gotten := get_item now cs.cache folder_id
            let cs1 : CalcState := { cs with cache := gotten.2 }
            let cached_usable : Option DriveItem :=
              match gotten.1 with
              | some cf =>
                if cf.calculated_size.isSome &&
                    !(should_recalculate cfg now s cf) then some cf else none
              | none => none
            match cached_usable with
            | some cf =>
              let s' := updateItem s folder_id (fun f =>
                { f with calculated_size := cf.calculated_size,
                         file_count := cf.file_count,
                         folder_count := cf.folder_count,
                         last_scanned := cf.last_scanned,
                         scan_complete := true })
              let v := cf.calculated_size.getD 0
              Except.ok (v, s',
                { cs1 with
                  calculated_folders :=
                    assocInsert cs1.calculated_folders folder_id v,
                  stats :=
                    { cs1.stats with cache_hits := cs1.stats.cache_hits + 1 } })
            | none =>
              -- in-memory freshness check (lines 192-196)
              if folder.calculated_size.isSome &&
                  !(should_recalculate cfg now s folder) then
                let v := folder.calculated_size.getD 0
                Except.ok (v, s,
                  { cs1 with
                    calculated_folders :=
                      assocInsert cs1.calculated_folders folder_id v,
                    stats :=
                      { cs1.stats with cache_hits := cs1.stats.cache_hits + 1 } })
              else
                -- mark in progress (line 199), compute, finally discard (254)
                let cs2 : CalcState :=
                  { cs1 with processing_folders :=
                      folder_id :: cs1.processing_folders }
                match children_pass
                    (calculate_folder_size_recursive fails cfg now fuel)
                    folder.children 0 0 0 s cs2 with
                | Except.error (e, sE, csE) =>
                  Except.error (e, sE,
                    { csE with processing_folders :=
                        csE.processing_folders.erase folder_id })
                | Except.ok (total_size, file_count, folder_count, s1, cs3) =>
                  let counts := nested_counts s1 folder.children file_count folder_count
                  -- commit folder metadata (lines 231-236)
                  let s2 := updateItem s1 folder_id (fun f =>
                    { f with calculated_size := some total_size,
                             file_count := counts.1,
                             folder_count := counts.2,
                             last_scanned := some now,
                             scan_complete := true })
                  -- memoize and update statistics (lines 238-241)
                  let cs4 : CalcState :=
                    { cs3 with
                      calculated_folders :=
                        assocInsert cs3.calculated_folders folder_id total_size,
                      stats :=
                        { cs3.stats with
                          processed_items := cs3.stats.processed_items + 1,
                          total_size_calculated :=
                            cs3.stats.total_size_calculated + total_size } }
                  -- cache the updated folder (lines 244-245)
                  let cs5 : CalcState :=
                    if cfg.enabled then
                      match lookupItem s2 folder_id with
                      | some updated =>
                        { cs4 with cache := (cache_item now cs4.cache updated).2 }
                      | none => cs4
                    else cs4
                  Except.ok (total_size, s2,
                    { cs5 with processing_folders :=
                        cs5.processing_folders.erase folder_id })

/-- calculator.py `calculate_full_drive_sizes` per-folder loop with its
error isolation (lines 96-138): permission failures mark the folder as
scanned-but-empty, rate-limit failures retry once, any other failure is
counted and skipped. -/
def calculation_loop (fails : String → Option CalcErr) (cfg : CacheConfig)
    (now : Int) (fuel : Nat) :
    List String → DriveStructure → CalcState → DriveStructure × CalcState
  | [], s, cs => (s, cs)
  | fid :: rest, s, cs =>
    match calculate_folder_size_recursive fails cfg now fuel fid s cs with
    | Except.ok (_, s1, cs1) =>
      calculation_loop fails cfg now fuel rest s1 cs1
    | Except.error (CalcErr.permission, s1, cs1) =>
      let cs2 : CalcState :=
        { cs1 with stats :=
            { cs1.stats with
              permission_errors := cs1.stats.permission_errors + 1,
              errors_encountered := cs1.stats.errors_encountered + 1 } }
      let s2 := updateItem s1 fid (fun f =>
        { f with scan_complete := true, calculated_size := some 0,
                 last_scanned := some now })
      calculation_loop fails cfg now fuel rest s2 cs2
    | Except.error (CalcErr.rateLimit, s1, cs1) =>
      let cs2 : CalcState :=
        { cs1 with stats :=
            { cs1.stats with
              rate_limit_errors := cs1.stats.rate_limit_errors + 1,
              errors_encountered := cs1.stats.errors_encountered + 1 } }
      -- wait and retry once (lines 127-133)
      match calculate_folder_size_recursive fails cfg now fuel fid s1 cs2 with
      | Except.ok (_, s2, cs3) => calculation_loop fails cfg now fuel rest s2 cs3
      | Except.error (_, s2, cs3) => calculation_loop fails cfg now fuel rest s2 cs3
    | Except.error (CalcErr.general, s1, cs1) =>
      calculation_loop fails cfg now fuel rest s1
        { cs1 with stats :=
            { cs1.stats with
              errors_encountered := cs1.stats.errors_encountered + 1 } }

/-- Contribution of a folder's `calculated_size` to the structure totals:
`if item.calculated_size:` adds it only when non-null and nonzero, which adds
the same quantity as this function. -/
def calculated_contribution (item : DriveItem) : Int :=
  match item.calculated_size with
  | some c => if c == 0 then 0 else c
  | none => 0

/-- calculator.py `DriveCalculator._update_structure_stats` (lines 430-449):
recompute the totals over every item of the map, then stamp the scan. -/
def update_structure_stats (now : Int) (s : DriveStructure) : DriveStructure :=
  let acc := s.all_items.foldl
    (fun (acc : Int × Int × Int) p =>
      if p.2.is_folder then
        (acc.1 + calculated_contribution p.2, acc.2.1, acc.2.2 + 1)
      else
        (acc.1 + p.2.size, acc.2.1 + 1, acc.2.2))
    (0, 0, 0)
  { s with total_files := acc.2.1, total_folders := acc.2.2,
           total_size := acc.1, scan_timestamp := some now,
           scan_complete := true }

/-- calculator.py `DriveCalculator._reset_stats` (lines 451-461). -/
def reset_stats (cs : CalcState) : CalcState :=
  { cs with stats := {}, calculated_folders := [], processing_folders := [] }

/-- calculator.py lines 83-86: the folders selected for calculation. -/
def folders_to_calculate (s : DriveStructure) (force_recalculate : Bool) :
    List String :=
  (s.all_items.filter (fun p =>
    p.2.is_folder && (force_recalculate || p.2.calculated_size.isNone))).map
    (fun p => p.1)

/-- calculator.py `DriveCalculator.calculate_full_drive_sizes`
(lines 61-156): reset statistics, select folders, run the loop, recompute the
structure statistics, and cache the complete structure when enabled. -/
def calculate_full_drive_sizes (fails : String → Option CalcErr)
    (cfg : CacheConfig) (now : Int) (s : DriveStructure)
    (force_recalculate : Bool) (cs : CalcState) : DriveStructure × CalcState :=
  let cs0 := reset_stats cs
  let targets := folders_to_calculate s force_recalculate
  let fuel := s.all_items.length + 1
  let r := calculation_loop fails cfg now fuel targets s cs0
  let s1 := update_structure_stats now r.1
  let cs1 :=
    if cfg.enabled then
      { r.2 with cache := (cache_structure now r.2.cache s1 "full_drive").2 }
    else r.2
  (s1, cs1)

/-- The no-fault oracle: the program as written, no injected exceptions. -/
def no_failures : String → Option CalcErr := fun _ => none

/- ===== spec-side definitions (phrased from the spec, for comparison) ===== -/

/-- Spec reading of the structure total (claim C1): sum of the top-level
(root) folders' calculated sizes plus the sizes of the root-level files. -/
def spec_top_level_total (s : DriveStructure) : Int :=
  ((s.root_folders.map (fun fid =>
      ((lookupItem s fid).bind (fun f => f.calculated_size)).getD 0)).sum : Int) +
  ((s.root_files.map (fun fid =>
      ((lookupItem s fid).map (fun f => f.size)).getD 0)).sum : Int)

/-- Sum actually produced by `_update_structure_stats`: every folder's truthy
`calculated_size` plus every file's raw size, over the whole ID map. -/
def drive_wide_total (s : DriveStructure) : Int :=
  (s.all_items.map (fun p =>
    if p.2.is_folder then calculated_contribution p.2 else p.2.size)).sum

/-- Number of non-folder entries of the ID map. -/
def count_files (s : DriveStructure) : Int :=
  ((s.all_items.filter (fun p => !p.2.is_folder)).length : Int)

/-- Number of folder entries of the ID map. -/
def count_folders (s : DriveStructure) : Int :=
  ((s.all_items.filter (fun p => p.2.is_folder)).length : Int)

/-- Spec predicate (claim C5, case 2): `last_scanned` lies within the TTL
window, i.e. hours since the scan are fewer than `ttl_hours`. -/
def scanned_within_ttl (cfg : CacheConfig) (now : Int) (folder : DriveItem) :
    Bool :=
  match folder.last_scanned with
  | some ls => if now - ls < cfg.ttl_hours * 3600 then true else false
  | none => false

/-- Spec predicate (claim C5, case 3): some direct child's `modified_time` is
strictly newer than the folder's `last_scanned`. -/
def has_newer_child (s : DriveStructure) (folder : DriveItem) : Bool :=
  match folder.last_scanned with
  | some ls =>
    folder.children.any (fun cid =>
      match lookupItem s cid with
      | some child =>
        match child.modified_time with
        | some mt => mt > ls
        | none => false
      | none => false)
  | none => false

/-- The recalculation policy exactly as the spec states it: four sequential
cases. -/
def should_recalculate_policy (cfg : CacheConfig) (now : Int)
    (s : DriveStructure) (folder : DriveItem) : Bool :=
  if folder.calculated_size.isNone then true
  else if scanned_within_ttl cfg now folder then false
  else if has_newer_child s folder then true
  else false

/-- Structure invariant of claim C9. -/
def structure_invariant (s : DriveStructure) : Prop :=
  s.total_files + s.total_folders = (s.all_items.length : Int)

/-- Building a structure by a sequence of `add_item` calls from empty. -/
def build_structure (l : List DriveItem) : DriveStructure :=
  l.foldl DriveStructure.add_item {}

/- ===== invariants used to reason about one aggregation run ===== -/

/-- How one item record can change during `_calculate_folder_size_recursive`:
either it is untouched, or it belongs to a folder whose aggregation did not
raise and was committed, leaving a non-null `calculated_size`,
`scan_complete = true`, and the item's type intact. -/
def item_evolves (fails : String → Option CalcErr) (k : String)
    (it it' : DriveItem) : Prop :=
  it' = it ∨
    (fails k = none ∧ it'.calculated_size.isSome = true ∧
     it'.scan_complete = true ∧ it'.type = it.type)

/-- Pointwise evolution of the ID map across a recursive aggregation call:
same entries in the same order, same keys, each value evolving per
`item_evolves`. -/
def struct_evolves (fails : String → Option CalcErr)
    (s s' : DriveStructure) : Prop :=
  List.Forall₂ (fun p p' => p'.1 = p.1 ∧ item_evolves fails p.1 p.2 p'.2)
    s.all_items s'.all_items

/-- Item evolution across the whole per-folder loop (the loop additionally
marks permission-failed folders complete with size 0, so the fault condition
drops out). -/
def item_evolves_loop (it it' : DriveItem) : Prop :=
  it' = it ∨
    (it'.calculated_size.isSome = true ∧ it'.scan_complete = true ∧
     it'.type = it.type)

/-- Pointwise evolution of the ID map across the per-folder loop. -/
def loop_evolves (s s' : DriveStructure) : Prop :=
  List.Forall₂ (fun p p' => p'.1 = p.1 ∧ item_evolves_loop p.2 p'.2)
    s.all_items s'.all_items

/-- The run memo only ever names folders that are present in the map and
already carry a non-null `calculated_size`. -/
def memo_ok (s : DriveStructure) (cs : CalcState) : Prop :=
  ∀ k v, assocFind cs.calculated_folders k = some v →
    ∃ it, lookupItem s k = some it ∧ it.calculated_size.isSome = true

/-- Structure carried by either constructor of a `CalcResult`. -/
def calc_result_struct : CalcResult → DriveStructure
  | Except.ok (_, s, _) => s
  | Except.error (_, s, _) => s

/-- Calculator state carried by either constructor of a `CalcResult`. -/
def calc_result_state : CalcResult → CalcState
  | Except.ok (_, _, cs) => cs
  | Except.error (_, _, cs) => cs

/-- Result type of the first children loop. -/
abbrev ChildResult :=
  Except (CalcErr × DriveStructure × CalcState)
    (Int × Int × Int × DriveStructure × CalcState)

/-- Structure carried by either constructor of a `ChildResult`. -/
def child_result_struct : ChildResult → DriveStructure
  | Except.ok (_, _, _, s, _) => s
  | Except.error (_, s, _) => s

/-- Calculator state carried by either constructor of a `ChildResult`. -/
def child_result_state : ChildResult → CalcState
  | Except.ok (_, _, _, _, cs) => cs
  | Except.error (_, _, cs) => cs

/-- Common postcondition of one recursive aggregation call: the map evolves
pointwise, the in-progress set is restored, the memo stays sound, and the
three error counters are untouched (they are only bumped by the top-level
loop). -/
def rec_ev_post (fails : String → Option CalcErr) (s : DriveStructure)
    (cs : CalcState) (s' : DriveStructure) (cs' : CalcState) : Prop :=
  struct_evolves fails s s' ∧
  cs'.processing_folders = cs.processing_folders ∧
  memo_ok s' cs' ∧
  cs'.stats.permission_errors = cs.stats.permission_errors ∧
  cs'.stats.errors_encountered = cs.stats.errors_encountered ∧
  cs'.stats.rate_limit_errors = cs.stats.rate_limit_errors

/-- Fault oracle raising the permission error on exactly one folder. -/
def fail_one (bad_id : String) : String → Option CalcErr :=
  fun k => if k == bad_id then some CalcErr.permission else none

/- ===== concrete sample data used by witnesses and counterexamples ===== -/

/-- Configuration with caching disabled. -/
def cfg_off : CacheConfig := { enabled := false, ttl_hours := 24 }

/-- A disabled cache object. -/
def cache_off : DriveCache := { enabled := false, ttl_hours := 24 }

/-- Fresh calculator state over a disabled cache. -/
def cs_off : CalcState := { cache := cache_off }

/-- A plain file of the given ID and size. -/
def file_item (i : String) (sz : Int) : DriveItem :=
  { id := i, name := i, type := ItemType.file, size := sz }

/-- A folder with the given ID and direct children. -/
def folder_item (i : String) (cs : List String) : DriveItem :=
  { id := i, name := i, type := ItemType.folder, children := cs }

/-- Claim C2's structure: root contains a subfolder and a 1000-byte file;
the subfolder contains a 2000-byte file. -/
def s_c2 : DriveStructure :=
  { root_folders := ["root"], root_files := [],
    all_items :=
      [("root", folder_item "root" ["sub", "f1"]),
       ("sub", folder_item "sub" ["f2"]),
       ("f1", file_item "f1" 1000),
       ("f2", file_item "f2" 2000)] }

/-- Claim C1's counterexample structure: one root folder containing a
subfolder containing a 100-byte file. -/
def s_c1 : DriveStructure :=
  { root_folders := ["A"], root_files := [],
    all_items :=
      [("A", folder_item "A" ["B"]),
       ("B", folder_item "B" ["f"]),
       ("f", file_item "f" 100)] }

/-- Claim C8's sample structure: two sibling root folders, one of which will
be made to raise on aggregation. -/
def s_c8 : DriveStructure :=
  { root_folders := ["good", "bad"], root_files := [],
    all_items :=
      [("good", folder_item "good" ["g1"]),
       ("bad", folder_item "bad" []),
       ("g1", file_item "g1" 7)] }

/-- Fault oracle for claim C8's witness: aggregating the folder "bad" always
raises the permission error. -/
def fails_bad : String → Option CalcErr :=
  fun k => if k == "bad" then some CalcErr.permission else none

/-- An enabled cache holding one fresh row, one expired row and one corrupt
row, used by claim C6's witness. -/
def cache_c6 : DriveCache :=
  { enabled := true, ttl_hours := 24,
    items :=
      [("fresh", { data := some (file_item "fresh" 5), expires_at := 100 }),
       ("old", { data := some (file_item "old" 6), expires_at := 10 }),
       ("corrupt", { data := none, expires_at := 100 })] }

/-- A disabled cache that nevertheless holds rows, used by claim C7's
witness to show the operations do not even read them. -/
def cache_c7 : DriveCache :=
  { enabled := false, ttl_hours := 24,
    items := [("x", { data := some (file_item "x" 1), expires_at := 0 })],
    structures := [("full_drive", { data := none, expires_at := 0 })],
    metadata := [("schema_version", "2")] }

/-- Claim C10's witness parent: a folder at path "p" with one child "c0". -/
def parent_c10 : DriveItem := { folder_item "p" ["c0"] with path := "p" }

/-- Claim C10's witness child. -/
def child_c10 : DriveItem := file_item "c" 3

/- =========================== theorems =========================== -/

/-- Rebuilding a string from its character list is the identity. -/
theorem string_mk_data (x : String) : String.mk x.data = x := rfl

/-- Appending to a string whose first character is not a slash never changes
under `lstrip("/")`. -/
theorem lstripSlash_no_leading (s t : String) (c : Char) (rest : List Char)
    (hs : s.data = c :: rest) (hc : ¬ c = '/') :
    lstripSlash (s ++ t) = s ++ t := by
  have hd : (s ++ t).data = c :: (rest ++ t.data) := by
    rw [String.data_append, hs]
    rfl
  apply String.ext
  show ((s ++ t).data.dropWhile fun ch => ch == '/') = (s ++ t).data
  rw [hd]
  exact List.dropWhile_cons_of_neg (by simp [hc])

/-- Claim C10: `add_child` is idempotent on child identity — a duplicate
child ID leaves the children list unchanged — and a successful add appends
the child's ID and sets its path to parent-path/child-name (the code strips
leading slashes, which is the identity whenever the parent path does not
start with a slash). -/
theorem claim_C10 (parent child : DriveItem) (h : parent.is_folder = true) :
    (child.id ∈ parent.children →
      DriveItem.add_child parent child = Except.ok (parent, child)) ∧
    (child.id ∉ parent.children →
      DriveItem.add_child parent child =
        Except.ok ({ parent with children := parent.children ++ [child.id] },
          { child with path := lstripSlash (parent.path ++ "/" ++ child.name) })) ∧
    (∀ c rest, parent.path.data = c :: rest → ¬ c = '/' →
      lstripSlash (parent.path ++ "/" ++ child.name) =
        parent.path ++ "/" ++ child.name) := by
  have hnf : (!parent.is_folder) = false := by rw [h]; rfl
  refine ⟨?_, ?_, ?_⟩
  · intro hmem
    have hcont : parent.children.contains child.id = true :=
      List.elem_eq_true_of_mem hmem
    unfold DriveItem.add_child
    rw [hnf, hcont]
    simp
  · intro hmem
    have hcont : parent.children.contains child.id = false := by
      by_contra hne
      exact hmem (List.mem_of_elem_eq_true (Bool.ne_false_iff.mp hne))
    unfold DriveItem.add_child
    rw [hnf, hcont]
    simp
  · intro c rest hs hc
    have := lstripSlash_no_leading (parent.path ++ "/") child.name c
      (rest ++ ['/']) (by rw [String.data_append, hs]; rfl) hc
    simpa [String.append_assoc] using this

/-- Witness for claim C10 at a concrete parent and child. -/
theorem claim_C10_witness :
    parent_c10.is_folder = true ∧
    ((child_c10.id ∈ parent_c10.children →
        DriveItem.add_child parent_c10 child_c10 =
          Except.ok (parent_c10, child_c10)) ∧
     (child_c10.id ∉ parent_c10.children →
        DriveItem.add_child parent_c10 child_c10 =
          Except.ok
            ({ parent_c10 with children := parent_c10.children ++ [child_c10.id] },
             { child_c10 with
                path := lstripSlash (parent_c10.path ++ "/" ++ child_c10.name) })) ∧
     (∀ c rest, parent_c10.path.data = c :: rest → ¬ c = '/' →
        lstripSlash (parent_c10.path ++ "/" ++ child_c10.name) =
          parent_c10.path ++ "/" ++ child_c10.name)) :=
  ⟨rfl, claim_C10 parent_c10 child_c10 rfl⟩

/-- Claim C2: for root → subfolder → file(2000) and root → file(1000), a full
aggregation run yields root.calculated_size = 3000, root.file_count = 2 and
root.folder_count = 1 (the direct subfolder counted once). -/
theorem claim_C2 :
    ((lookupItem (calculate_full_drive_sizes no_failures cfg_off 0 s_c2 false
        cs_off).1 "root").map
      (fun f => (f.calculated_size, f.file_count, f.folder_count))) =
    some (some 3000, 2, 1) := by decide

/-- Claim C4: a folder whose ID is already in the in-progress set makes the
aggregation call return 0 immediately with the state untouched (so no child
is visited) and without raising. -/
theorem claim_C4 (fails : String → Option CalcErr) (cfg : CacheConfig)
    (now : Int) (fuel : Nat) (folder_id : String) (s : DriveStructure)
    (cs : CalcState) (h : folder_id ∈ cs.processing_folders) :
    calculate_folder_size_recursive fails cfg now fuel folder_id s cs =
      Except.ok (0, s, cs) := by
  cases fuel with
  | zero => rfl
  | succ n =>
    have hc : cs.processing_folders.contains folder_id = true :=
      List.elem_eq_true_of_mem h
    unfold calculate_folder_size_recursive
    rw [hc]
    simp

/-- Witness for claim C4 at a concrete in-progress folder. -/
theorem claim_C4_witness :
    "root" ∈ ["root", "other"] ∧
    calculate_folder_size_recursive no_failures cfg_off 0 5 "root" s_c2
        { cs_off with processing_folders := ["root", "other"] } =
      Except.ok (0, s_c2, { cs_off with processing_folders := ["root", "other"] }) :=
  ⟨by decide,
   claim_C4 no_failures cfg_off 0 5 "root" s_c2
     { cs_off with processing_folders := ["root", "other"] } (by decide)⟩

/-- Claim C5: `_should_recalculate` implements exactly the spec's four-case
policy: true when `calculated_size` is null; else false when `last_scanned`
is within the TTL window; else true when a direct child was modified
strictly after `last_scanned`; else false. -/
theorem claim_C5 (cfg : CacheConfig) (now : Int) (s : DriveStructure)
    (folder : DriveItem) :
    should_recalculate cfg now s folder =
      should_recalculate_policy cfg now s folder := by
  unfold should_recalculate should_recalculate_policy scanned_within_ttl
    has_newer_child
  by_cases h1 : folder.calculated_size.isNone
  · simp [h1]
  · simp only [h1, Bool.false_eq_true, if_false]
    cases hls : folder.last_scanned with
    | none => simp
    | some ls =>
      by_cases h2 : now - ls < cfg.ttl_hours * 3600
      · simp [h2]
      · simp [h2, List.any_eq]

/-- Claim C6: `get_item` returns the stored item when the row exists, is not
past expiry and deserializes; deletes the row and returns absent when it is
expired; and returns absent with no state change when deserialization
fails. -/
theorem claim_C6 (now : Int) (c : DriveCache) (item_id : String)
    (row : CachedItemRow) (hen : c.enabled = true)
    (hrow : assocFind c.items item_id = some row) :
    (∀ it, row.data = some it → ¬ now > row.expires_at →
        get_item now c item_id = (some it, c)) ∧
    (now > row.expires_at →
        get_item now c item_id =
          (none, { c with items := assocErase c.items item_id })) ∧
    (row.data = none → ¬ now > row.expires_at →
        get_item now c item_id = (none, c)) := by
  have hne : (!c.enabled) = false := by rw [hen]; rfl
  have key : get_item now c item_id =
      (if now > row.expires_at then
        (none, { c with items := assocErase c.items item_id })
       else (row.data, c)) := by
    unfold get_item is_expired
    rw [hne, hrow]
    by_cases hexp : now > row.expires_at <;> simp [hexp]
  refine ⟨?_, ?_, ?_⟩
  · intro it hit hexp
    rw [key, if_neg hexp, hit]
  · intro hexp
    rw [key, if_pos hexp]
  · intro hdat hexp
    rw [key, if_neg hexp, hdat]

/-- Witness for claim C6 on a cache holding a fresh row. -/
theorem claim_C6_witness :
    cache_c6.enabled = true ∧
    assocFind cache_c6.items "fresh" =
      some { data := some (file_item "fresh" 5), expires_at := 100 } ∧
    ((∀ it, (some (file_item "fresh" 5) : Option DriveItem) = some it →
        ¬ (50 : Int) > 100 → get_item 50 cache_c6 "fresh" = (some it, cache_c6)) ∧
     ((50 : Int) > 100 →
        get_item 50 cache_c6 "fresh" =
          (none, { cache_c6 with items := assocErase cache_c6.items "fresh" })) ∧
     ((some (file_item "fresh" 5) : Option DriveItem) = none →
        ¬ (50 : Int) > 100 → get_item 50 cache_c6 "fresh" = (none, cache_c6))) :=
  ⟨rfl, by decide,
   claim_C6 50 cache_c6 "fresh"
     { data := some (file_item "fresh" 5), expires_at := 100 } rfl (by decide)⟩

/-- Claim C7: with caching disabled every operation is a pure no-op that
returns the documented nothing-happened result and leaves the store
untouched. -/
theorem claim_C7 (now : Int) (c : DriveCache) (item : DriveItem)
    (item_id : String) (h : c.enabled = false) :
    cache_item now c item = (false, c) ∧
    get_item now c item_id = (none, c) ∧
    clear_all c = (false, c) ∧
    clear_expired now c = (0, c) ∧
    invalidate_item c item_id = (false, c) := by
  have hne : (!c.enabled) = true := by rw [h]; rfl
  unfold cache_item get_item clear_all clear_expired invalidate_item
  simp [hne]

/-- Witness for claim C7 on a disabled cache that still holds rows. -/
theorem claim_C7_witness :
    cache_c7.enabled = false ∧
    (cache_item 5 cache_c7 (file_item "x" 1) = (false, cache_c7) ∧
     get_item 5 cache_c7 "x" = (none, cache_c7) ∧
     clear_all cache_c7 = (false, cache_c7) ∧
     clear_expired 5 cache_c7 = (0, cache_c7) ∧
     invalidate_item cache_c7 "x" = (false, cache_c7)) :=
  ⟨rfl, claim_C7 5 cache_c7 (file_item "x" 1) "x" rfl⟩

/-- Claim C9 fails as stated: adding the same item twice increments the
counters twice while the ID map keeps a single entry. -/
theorem claim_C9_counterexample :
    ¬ structure_invariant (build_structure [file_item "a" 5, file_item "a" 5]) := by
  unfold structure_invariant build_structure
  decide

/-- Claim C1 fails as stated: on a chain root → subfolder → file(100) the
recomputed `total_size` is 300 (every folder's calculated size plus every
file's size), not the 100 predicted by the top-level-only sum. -/
theorem claim_C1_counterexample :
    (calculate_full_drive_sizes no_failures cfg_off 0 s_c1 false cs_off).1.total_size
        = 300 ∧
    spec_top_level_total
        (calculate_full_drive_sizes no_failures cfg_off 0 s_c1 false cs_off).1
        = 100 ∧
    ¬ ((calculate_full_drive_sizes no_failures cfg_off 0 s_c1 false cs_off).1.total_size
        = spec_top_level_total
            (calculate_full_drive_sizes no_failures cfg_off 0 s_c1 false cs_off).1) := by
  refine ⟨by decide, by decide, by decide⟩

/-- Adding an item whose ID is not yet a key appends one entry and bumps the
two counters' sum by exactly one. -/
theorem add_item_fresh (s : DriveStructure) (item : DriveItem)
    (hfresh : item.id ∉ s.all_items.map Prod.fst) :
    (s.add_item item).all_items = s.all_items ++ [(item.id, item)] ∧
    (s.add_item item).total_files + (s.add_item item).total_folders =
      s.total_files + s.total_folders + 1 := by
  have hany : (s.all_items.any fun p => p.1 == item.id) = false := by
    rw [List.any_eq_false]
    intro p hp
    simp only [beq_iff_eq]
    intro he
    exact hfresh (List.mem_map.2 ⟨p, hp, he⟩)
  constructor
  · unfold DriveStructure.add_item assocInsert
    rw [hany]
    by_cases hf : item.is_folder <;> simp [hf]
  · unfold DriveStructure.add_item
    by_cases hf : item.is_folder <;> simp [hf] <;> ring

/-- Folding `add_item` over items with fresh, pairwise-distinct IDs keeps the
counter invariant. -/
theorem build_invariant_aux :
    ∀ (l : List DriveItem) (s : DriveStructure),
      structure_invariant s →
      (∀ x ∈ l, x.id ∉ s.all_items.map Prod.fst) →
      (l.map DriveItem.id).Nodup →
      structure_invariant (l.foldl DriveStructure.add_item s) := by
  intro l
  induction l with
  | nil => intro s hs _ _; simpa using hs
  | cons x xs ih =>
    intro s hs hfresh hnd
    have hx : x.id ∉ s.all_items.map Prod.fst := hfresh x (by simp)
    have hstep := add_item_fresh s x hx
    simp only [List.foldl_cons]
    apply ih
    · unfold structure_invariant at hs ⊢
      rw [hstep.2, hstep.1, hs]
      push_cast [List.length_append, List.length_singleton]
      ring
    · intro y hy
      have h1 : y.id ∉ s.all_items.map Prod.fst := hfresh y (by simp [hy])
      have h2 : ¬ y.id = x.id := by
        intro he
        exact (List.nodup_cons.mp hnd).1
          (he ▸ List.mem_map_of_mem DriveItem.id hy)
      rw [hstep.1]
      simp [h1, h2]
    · exact (List.nodup_cons.mp hnd).2

/-- Claim C9, amended: as long as no two `add_item` calls share an item ID,
the invariant `total_files + total_folders = len(all_items)` holds after
every prefix of the call sequence. -/
theorem claim_C9_amended (l : List DriveItem) (n : Nat)
    (h : (l.map DriveItem.id).Nodup) :
    structure_invariant (build_structure (l.take n)) := by
  unfold build_structure
  apply build_invariant_aux
  · unfold structure_invariant
    simp
  · intro x hx
    simp
  · have hsub : List.Sublist ((l.take n).map DriveItem.id)
        (l.map DriveItem.id) :=
      (List.take_sublist n l).map DriveItem.id
    exact h.sublist hsub

/-- Witness for claim C9's amended form on a three-item sequence. -/
theorem claim_C9_amended_witness :
    (([file_item "a" 1, file_item "b" 2, folder_item "d" []].map
        DriveItem.id).Nodup) ∧
    structure_invariant
      (build_structure
        ([file_item "a" 1, file_item "b" 2, folder_item "d" []].take 2)) :=
  ⟨by decide, claim_C9_amended _ 2 (by decide)⟩

/-- The statistics fold of `_update_structure_stats` computes, from any
starting accumulator, the truthy-calculated-size total, the file count and
the folder count. -/
theorem stats_foldl_spec (l : List (String × DriveItem)) :
    ∀ t f fo : Int,
      l.foldl
        (fun (acc : Int × Int × Int) p =>
          if p.2.is_folder then
            (acc.1 + calculated_contribution p.2, acc.2.1, acc.2.2 + 1)
          else (acc.1 + p.2.size, acc.2.1 + 1, acc.2.2))
        (t, f, fo) =
      (t + (l.map (fun p => if p.2.is_folder then calculated_contribution p.2
              else p.2.size)).sum,
       f + ((l.filter (fun p => !p.2.is_folder)).length : Int),
       fo + ((l.filter (fun p => p.2.is_folder)).length : Int)) := by
  induction l with
  | nil =>
    intro t f fo
    simp
  | cons x xs ih =>
    intro t f fo
    by_cases hx : x.2.is_folder
    · simp only [List.foldl_cons, hx, if_true, List.map_cons, List.sum_cons,
        List.filter_cons, Bool.not_true, ih]
      simp [hx, Prod.ext_iff]
      constructor
      · ring
      · ring
    · simp only [List.foldl_cons, hx, if_false, List.map_cons, List.sum_cons,
        List.filter_cons, ih]
      simp [hx, Prod.ext_iff]
      constructor
      · ring
      · ring

/-- Field-level description of `_update_structure_stats`. -/
theorem update_structure_stats_spec (now : Int) (s : DriveStructure) :
    (update_structure_stats now s).all_items = s.all_items ∧
    (update_structure_stats now s).total_size = drive_wide_total s ∧
    (update_structure_stats now s).total_files = count_files s ∧
    (update_structure_stats now s).total_folders = count_folders s ∧
    (update_structure_stats now s).scan_timestamp = some now ∧
    (update_structure_stats now s).scan_complete = true := by
  unfold update_structure_stats drive_wide_total count_files count_folders
  rw [stats_foldl_spec]
  simp

/-- Claim C1, amended: after a full aggregation run the structure totals are
recomputed over the whole ID map - every folder's truthy calculated size plus
every file's size - and the scan is stamped complete at the current time. -/
theorem claim_C1_amended (fails : String → Option CalcErr) (cfg : CacheConfig)
    (now : Int) (s : DriveStructure) (force_recalculate : Bool)
    (cs : CalcState) :
    (calculate_full_drive_sizes fails cfg now s force_recalculate cs).1.total_size
        = drive_wide_total
            (calculate_full_drive_sizes fails cfg now s force_recalculate cs).1 ∧
    (calculate_full_drive_sizes fails cfg now s force_recalculate cs).1.total_files
        = count_files
            (calculate_full_drive_sizes fails cfg now s force_recalculate cs).1 ∧
    (calculate_full_drive_sizes fails cfg now s force_recalculate cs).1.total_folders
        = count_folders
            (calculate_full_drive_sizes fails cfg now s force_recalculate cs).1 ∧
    (calculate_full_drive_sizes fails cfg now s force_recalculate cs).1.scan_complete
        = true ∧
    (calculate_full_drive_sizes fails cfg now s force_recalculate cs).1.scan_timestamp
        = some now := by
  have hmain : (calculate_full_drive_sizes fails cfg now s force_recalculate cs).1 =
      update_structure_stats now
        (calculation_loop fails cfg now (s.all_items.length + 1)
          (folders_to_calculate s force_recalculate) s (reset_stats cs)).1 := by
    unfold calculate_full_drive_sizes
    simp
  rw [hmain]
  set r1 := (calculation_loop fails cfg now (s.all_items.length + 1)
    (folders_to_calculate s force_recalculate) s (reset_stats cs)).1
  have h := update_structure_stats_spec now r1
  have hdw : drive_wide_total (update_structure_stats now r1) =
      drive_wide_total r1 := by
    unfold drive_wide_total
    rw [h.1]
  have hcf : count_files (update_structure_stats now r1) = count_files r1 := by
    unfold count_files
    rw [h.1]
  have hcfo : count_folders (update_structure_stats now r1) =
      count_folders r1 := by
    unfold count_folders
    rw [h.1]
  exact ⟨by rw [hdw, h.2.1], by rw [hcf, h.2.2.1], by rw [hcfo, h.2.2.2.1],
    h.2.2.2.2.2, h.2.2.2.2.1⟩


/-- Cons-step of `assocFind` when the head entry has the key. -/
theorem assocFind_cons_pos {α : Type} {x : String × α} {xs : List (String × α)}
    {k : String} (h : (x.1 == k) = true) :
    assocFind (x :: xs) k = some x.2 := by
  unfold assocFind
  rw [List.find?_cons]
  simp [h]

/-- Cons-step of `assocFind` when the head entry lacks the key. -/
theorem assocFind_cons_neg {α : Type} {x : String × α} {xs : List (String × α)}
    {k : String} (h : (x.1 == k) = false) :
    assocFind (x :: xs) k = assocFind xs k := by
  unfold assocFind
  rw [List.find?_cons]
  simp [h]

/-- Cons-step of `assocFind` for a literal pair head with the key. -/
theorem assocFind_cons_pair_pos {α : Type} (a : String) (b : α)
    (xs : List (String × α)) (k : String) (h : (a == k) = true) :
    assocFind ((a, b) :: xs) k = some b := by
  unfold assocFind
  rw [List.find?_cons]
  simp [h]

/-- Cons-step of `assocFind` for a literal pair head lacking the key. -/
theorem assocFind_cons_pair_neg {α : Type} (a : String) (b : α)
    (xs : List (String × α)) (k : String) (h : (a == k) = false) :
    assocFind ((a, b) :: xs) k = assocFind xs k := by
  unfold assocFind
  rw [List.find?_cons]
  simp [h]

/-- Replacing the entries of one key reads back the new value at that key,
provided the key occurs. -/
theorem assocFind_map_repl {α : Type} (l : List (String × α)) (k : String)
    (v : α) (hex : (l.any fun p => p.1 == k) = true) :
    assocFind (l.map fun p => if p.1 == k then (p.1, v) else p) k = some v := by
  induction l with
  | nil => simp at hex
  | cons x xs ih =>
    simp only [List.map_cons]
    by_cases hxk : (x.1 == k) = true
    · rw [if_pos hxk]
      exact assocFind_cons_pair_pos x.1 v _ k hxk
    · have hex' : (xs.any fun p => p.1 == k) = true := by
        rcases List.any_eq_true.mp hex with ⟨p, hp, hpk⟩
        rcases List.mem_cons.mp hp with h0 | h0
        · exact absurd (h0 ▸ hpk) (by simp_all)
        · exact List.any_eq_true.mpr ⟨p, h0, hpk⟩
      rw [if_neg (by simpa using hxk),
        assocFind_cons_neg (by simpa using hxk)]
      exact ih hex'

/-- Appending a fresh entry reads it back when no earlier entry has its
key. -/
theorem assocFind_append_fresh {α : Type} (l : List (String × α)) (k : String)
    (v : α) (hex : (l.any fun p => p.1 == k) = false) :
    assocFind (l ++ [(k, v)]) k = some v := by
  induction l with
  | nil =>
    rw [List.nil_append, assocFind_cons_pos (by simp)]
  | cons x xs ih =>
    have hx : (x.1 == k) = false := by
      have := List.any_eq_false.mp hex x (by simp)
      simpa using this
    have hex' : (xs.any fun p => p.1 == k) = false := by
      rw [List.any_eq_false] at hex ⊢
      intro p hp
      exact hex p (by simp [hp])
    rw [List.cons_append, assocFind_cons_neg hx]
    exact ih hex'

/-- Insert-or-replace reads back the inserted value at the inserted key. -/
theorem assocFind_insert_self {α : Type} (l : List (String × α)) (k : String)
    (v : α) : assocFind (assocInsert l k v) k = some v := by
  unfold assocInsert
  by_cases hex : (l.any fun p => p.1 == k) = true
  · rw [if_pos hex]
    exact assocFind_map_repl l k v hex
  · rw [if_neg hex]
    exact assocFind_append_fresh l k v (Bool.not_eq_true _ ▸ hex)

/-- Replacing the entries of one key never disturbs another key's lookup. -/
theorem assocFind_map_repl_ne {α : Type} (l : List (String × α)) (k : String)
    (v : α) (k' : String) (hne : ¬ k' = k) :
    assocFind (l.map fun p => if p.1 == k then (p.1, v) else p) k' =
      assocFind l k' := by
  induction l with
  | nil => rfl
  | cons x xs ih =>
    simp only [List.map_cons]
    by_cases hk' : (x.1 == k') = true
    · have hxk : (x.1 == k) = false := by
        have hx : x.1 = k' := beq_iff_eq.mp hk'
        simp [hx, hne]
      rw [if_neg (by simpa using hxk), assocFind_cons_pos hk',
        assocFind_cons_pos hk']
    · by_cases hxk : (x.1 == k) = true
      · rw [if_pos hxk,
          assocFind_cons_pair_neg x.1 v _ k' (by simpa using hk'),
          assocFind_cons_neg (by simpa using hk')]
        exact ih
      · rw [if_neg (by simpa using hxk),
          assocFind_cons_neg (by simpa using hk'),
          assocFind_cons_neg (by simpa using hk')]
        exact ih

/-- Appending a fresh entry never disturbs another key's lookup. -/
theorem assocFind_append_ne {α : Type} (l : List (String × α)) (k : String)
    (v : α) (k' : String) (hne : ¬ k' = k) :
    assocFind (l ++ [(k, v)]) k' = assocFind l k' := by
  induction l with
  | nil =>
    rw [List.nil_append,
      assocFind_cons_pair_neg k v [] k'
        (by rw [beq_eq_false_iff_ne]; exact fun h => hne h.symm)]
  | cons x xs ih =>
    by_cases hk' : (x.1 == k') = true
    · rw [List.cons_append, assocFind_cons_pos hk', assocFind_cons_pos hk']
    · rw [List.cons_append, assocFind_cons_neg (by simpa using hk'),
        assocFind_cons_neg (by simpa using hk')]
      exact ih

/-- Insert-or-replace leaves every other key's lookup unchanged. -/
theorem assocFind_insert_ne {α : Type} (l : List (String × α)) (k : String)
    (v : α) (k' : String) (hne : ¬ k' = k) :
    assocFind (assocInsert l k v) k' = assocFind l k' := by
  unfold assocInsert
  by_cases hex : (l.any fun p => p.1 == k) = true
  · rw [if_pos hex]
    exact assocFind_map_repl_ne l k v k' hne
  · rw [if_neg hex]
    exact assocFind_append_ne l k v k' hne

/-- Key-replacement at the raw list level: the updated key reads back the
transformed value. -/
theorem assocFind_map_update_self {α : Type} (l : List (String × α))
    (k : String) (g : α → α) (v : α) (h : assocFind l k = some v) :
    assocFind (l.map fun p => if p.1 == k then (p.1, g p.2) else p) k =
      some (g v) := by
  induction l with
  | nil => simp [assocFind] at h
  | cons x xs ih =>
    simp only [List.map_cons]
    by_cases hxk : (x.1 == k) = true
    · rw [assocFind_cons_pos hxk] at h
      have hv : x.2 = v := by simpa using h
      rw [if_pos hxk, hv]
      exact assocFind_cons_pair_pos x.1 (g v) _ k hxk
    · rw [assocFind_cons_neg (by simpa using hxk)] at h
      rw [if_neg (by simpa using hxk),
        assocFind_cons_neg (by simpa using hxk)]
      exact ih h

/-- Key-replacement at the raw list level: other keys read back unchanged. -/
theorem assocFind_map_update_ne {α : Type} (l : List (String × α))
    (k : String) (g : α → α) (k' : String) (hne : ¬ k' = k) :
    assocFind (l.map fun p => if p.1 == k then (p.1, g p.2) else p) k' =
      assocFind l k' := by
  induction l with
  | nil => rfl
  | cons x xs ih =>
    simp only [List.map_cons]
    by_cases hk' : (x.1 == k') = true
    · have hxk : (x.1 == k) = false := by
        have hx : x.1 = k' := beq_iff_eq.mp hk'
        simp [hx, hne]
      rw [if_neg (by simpa using hxk), assocFind_cons_pos hk',
        assocFind_cons_pos hk']
    · by_cases hxk : (x.1 == k) = true
      · rw [if_pos hxk,
          assocFind_cons_pair_neg x.1 (g x.2) _ k' (by simpa using hk'),
          assocFind_cons_neg (by simpa using hk')]
        exact ih
      · rw [if_neg (by simpa using hxk),
          assocFind_cons_neg (by simpa using hk'),
          assocFind_cons_neg (by simpa using hk')]
        exact ih

/-- Updating one item's record reads back the updated value at its ID. -/
theorem lookupItem_update_self (s : DriveStructure) (fid : String)
    (f : DriveItem → DriveItem) (it : DriveItem)
    (h : lookupItem s fid = some it) :
    lookupItem (updateItem s fid f) fid = some (f it) := by
  have hglue : lookupItem (updateItem s fid f) fid =
      assocFind (s.all_items.map fun p => if p.1 == fid then (p.1, f p.2) else p)
        fid := rfl
  rw [hglue]
  exact assocFind_map_update_self s.all_items fid f it h

/-- Updating one item's record never disturbs another ID's lookup. -/
theorem lookupItem_update_ne (s : DriveStructure) (fid : String)
    (f : DriveItem → DriveItem) (k : String) (hne : ¬ k = fid) :
    lookupItem (updateItem s fid f) k = lookupItem s k := by
  have hglue : lookupItem (updateItem s fid f) k =
      assocFind (s.all_items.map fun p => if p.1 == fid then (p.1, f p.2) else p)
        k := rfl
  rw [hglue]
  exact assocFind_map_update_ne s.all_items fid f k hne

/-- Any key of the map is looked up successfully. -/
theorem assocFind_of_mem_keys {α : Type} (l : List (String × α)) (k : String)
    (h : k ∈ l.map Prod.fst) : ∃ v, assocFind l k = some v := by
  induction l with
  | nil => simp at h
  | cons x xs ih =>
    by_cases hk : (x.1 == k) = true
    · exact ⟨x.2, assocFind_cons_pos hk⟩
    · have hx : ¬ k = x.1 := fun he => by simp [he] at hk
      rw [List.map_cons] at h
      rcases List.mem_cons.mp h with h0 | h0
      · exact absurd h0 hx
      · rcases ih h0 with ⟨v, hv⟩
        exact ⟨v, by rw [assocFind_cons_neg (by simpa using hk)]; exact hv⟩

/-- With pairwise-distinct keys, membership of an entry determines the
lookup. -/
theorem assocFind_of_mem_nodup {α : Type} (l : List (String × α))
    (p : String × α) (hmem : p ∈ l) (hnd : (l.map Prod.fst).Nodup) :
    assocFind l p.1 = some p.2 := by
  induction l with
  | nil => simp at hmem
  | cons x xs ih =>
    rw [List.map_cons] at hnd
    have hnd' := List.nodup_cons.mp hnd
    rcases List.mem_cons.mp hmem with h0 | h0
    · subst h0
      exact assocFind_cons_pos (by simp)
    · have hx : (x.1 == p.1) = false := by
        have hp : p.1 ∈ xs.map Prod.fst := List.mem_map_of_mem Prod.fst h0
        rw [beq_eq_false_iff_ne]
        intro he
        exact hnd'.1 (he ▸ hp)
      rw [assocFind_cons_neg hx]
      exact ih h0 hnd'.2

/-- Key-preserving pointwise relation lifted to entry lists. -/
theorem forall2_keyrel_refl (R : String → DriveItem → DriveItem → Prop)
    (hrefl : ∀ k a, R k a a) (l : List (String × DriveItem)) :
    List.Forall₂ (fun p p' => p'.1 = p.1 ∧ R p.1 p.2 p'.2) l l :=
  List.forall₂_same.mpr (fun p _ => ⟨rfl, hrefl p.1 p.2⟩)

/-- Transitivity of the lifted key-preserving relation. -/
theorem forall2_keyrel_trans (R : String → DriveItem → DriveItem → Prop)
    (htrans : ∀ k a b c, R k a b → R k b c → R k a c) :
    ∀ {l1 l2 l3 : List (String × DriveItem)},
      List.Forall₂ (fun p p' => p'.1 = p.1 ∧ R p.1 p.2 p'.2) l1 l2 →
      List.Forall₂ (fun p p' => p'.1 = p.1 ∧ R p.1 p.2 p'.2) l2 l3 →
      List.Forall₂ (fun p p' => p'.1 = p.1 ∧ R p.1 p.2 p'.2) l1 l3 := by
  intro l1 l2 l3 h1
  induction h1 generalizing l3 with
  | nil =>
    intro h2
    cases h2
    exact List.Forall₂.nil
  | @cons a b t1 t2 hab hrest ih =>
    intro h2
    cases h2 with
    | cons hbc hrest2 =>
      refine List.Forall₂.cons ⟨hbc.1.trans hab.1, ?_⟩ (ih hrest2)
      have h := hbc.2
      rw [hab.1] at h
      exact htrans a.1 a.2 b.2 _ hab.2 h

/-- Lifted relation from a key-preserving entry map. -/
theorem forall2_keyrel_of_map (R : String → DriveItem → DriveItem → Prop)
    (g : String × DriveItem → String × DriveItem)
    (hg : ∀ p, (g p).1 = p.1 ∧ R p.1 p.2 (g p).2)
    (l : List (String × DriveItem)) :
    List.Forall₂ (fun p p' => p'.1 = p.1 ∧ R p.1 p.2 p'.2) l (l.map g) := by
  induction l with
  | nil => exact List.Forall₂.nil
  | cons x xs ih => exact List.Forall₂.cons (hg x) ih

/-- Weakening the pointwise relation. -/
theorem forall2_keyrel_imp (R S : String → DriveItem → DriveItem → Prop)
    (himp : ∀ k a b, R k a b → S k a b) :
    ∀ {l1 l2 : List (String × DriveItem)},
      List.Forall₂ (fun p p' => p'.1 = p.1 ∧ R p.1 p.2 p'.2) l1 l2 →
      List.Forall₂ (fun p p' => p'.1 = p.1 ∧ S p.1 p.2 p'.2) l1 l2 := by
  intro l1 l2 h
  induction h with
  | nil => exact List.Forall₂.nil
  | cons hab _ ih =>
    exact List.Forall₂.cons ⟨hab.1, himp _ _ _ hab.2⟩ ih

/-- The lifted relation preserves the key list. -/
theorem forall2_keyrel_keys (R : String → DriveItem → DriveItem → Prop) :
    ∀ {l1 l2 : List (String × DriveItem)},
      List.Forall₂ (fun p p' => p'.1 = p.1 ∧ R p.1 p.2 p'.2) l1 l2 →
      l2.map Prod.fst = l1.map Prod.fst := by
  intro l1 l2 h
  induction h with
  | nil => rfl
  | cons hab _ ih => simp [hab.1, ih]

/-- Lookups transport along the lifted relation. -/
theorem forall2_keyrel_lookup (R : String → DriveItem → DriveItem → Prop) :
    ∀ {l1 l2 : List (String × DriveItem)},
      List.Forall₂ (fun p p' => p'.1 = p.1 ∧ R p.1 p.2 p'.2) l1 l2 →
      ∀ k it, assocFind l1 k = some it →
        ∃ it', assocFind l2 k = some it' ∧ R k it it' := by
  intro l1 l2 h
  induction h with
  | nil =>
    intro k it hit
    simp [assocFind] at hit
  | @cons a b t1 t2 hab hrest ih =>
    intro k it hit
    by_cases hk : (a.1 == k) = true
    · rw [assocFind_cons_pos hk] at hit
      have hbk : (b.1 == k) = true := by rw [hab.1]; exact hk
      have hak : a.1 = k := beq_iff_eq.mp hk
      obtain rfl : a.2 = it := by simpa using hit
      exact ⟨b.2, assocFind_cons_pos hbk, hak ▸ hab.2⟩
    · have hbk : (b.1 == k) = false := by
        rw [hab.1]
        simpa using hk
      rw [assocFind_cons_neg (by simpa using hk)] at hit
      rw [assocFind_cons_neg hbk]
      exact ih k it hit

/-- Every entry of the evolved list descends from an entry of the original
list with the same key. -/
theorem forall2_keyrel_mem_rev (R : String → DriveItem → DriveItem → Prop) :
    ∀ {l1 l2 : List (String × DriveItem)},
      List.Forall₂ (fun p p' => p'.1 = p.1 ∧ R p.1 p.2 p'.2) l1 l2 →
      ∀ p' ∈ l2, ∃ p ∈ l1, p'.1 = p.1 ∧ R p.1 p.2 p'.2 := by
  intro l1 l2 h
  induction h with
  | nil =>
    intro p' hp'
    simp at hp'
  | @cons a b t1 t2 hab hrest ih =>
    intro p' hp'
    rcases List.mem_cons.mp hp' with h0 | h0
    · exact ⟨a, by simp, h0 ▸ hab⟩
    · rcases ih p' h0 with ⟨p, hp, hrel⟩
      exact ⟨p, by simp [hp], hrel⟩

/-- Transitivity of per-item evolution. -/
theorem item_evolves_trans {fails : String → Option CalcErr} {k : String}
    {a b c : DriveItem} (h1 : item_evolves fails k a b)
    (h2 : item_evolves fails k b c) : item_evolves fails k a c := by
  rcases h2 with rfl | ⟨hf, hs, hc, ht⟩
  · exact h1
  · rcases h1 with rfl | ⟨_, _, _, ht1⟩
    · exact Or.inr ⟨hf, hs, hc, ht⟩
    · exact Or.inr ⟨hf, hs, hc, ht.trans ht1⟩

/-- Per-item evolution preserves a non-null calculated size. -/
theorem item_evolves_isSome {fails : String → Option CalcErr} {k : String}
    {a b : DriveItem} (h : item_evolves fails k a b)
    (hs : a.calculated_size.isSome = true) :
    b.calculated_size.isSome = true := by
  rcases h with rfl | ⟨_, h2, _, _⟩
  · exact hs
  · exact h2

/-- Map evolution is reflexive. -/
theorem struct_evolves_refl (fails : String → Option CalcErr)
    (s : DriveStructure) : struct_evolves fails s s :=
  forall2_keyrel_refl _ (fun _ _ => Or.inl rfl) s.all_items

/-- Map evolution is transitive. -/
theorem struct_evolves_trans {fails : String → Option CalcErr}
    {s1 s2 s3 : DriveStructure} (h1 : struct_evolves fails s1 s2)
    (h2 : struct_evolves fails s2 s3) : struct_evolves fails s1 s3 := by
  unfold struct_evolves at h1 h2 ⊢
  exact forall2_keyrel_trans (item_evolves fails)
    (fun k a b c ha hb => item_evolves_trans ha hb) h1 h2

/-- Committing aggregation results to one folder is a map evolution. -/
theorem struct_evolves_update (fails : String → Option CalcErr)
    (s : DriveStructure) (fid : String) (f : DriveItem → DriveItem)
    (hf : fails fid = none)
    (hset : ∀ it : DriveItem, (f it).calculated_size.isSome = true ∧
      (f it).scan_complete = true ∧ (f it).type = it.type) :
    struct_evolves fails s (updateItem s fid f) := by
  unfold struct_evolves
  have hglue : (updateItem s fid f).all_items =
      s.all_items.map (fun p => if p.1 == fid then (p.1, f p.2) else p) := rfl
  rw [hglue]
  apply forall2_keyrel_of_map
  intro p
  by_cases hp : (p.1 == fid) = true
  · constructor
    · show (if (p.1 == fid) = true then (p.1, f p.2) else p).1 = p.1
      rw [if_pos hp]
    · show item_evolves fails p.1 p.2
        (if (p.1 == fid) = true then (p.1, f p.2) else p).2
      rw [if_pos hp]
      refine Or.inr ⟨?_, (hset p.2).1, (hset p.2).2.1, (hset p.2).2.2⟩
      rw [beq_iff_eq.mp hp]
      exact hf
  · constructor
    · show (if (p.1 == fid) = true then (p.1, f p.2) else p).1 = p.1
      rw [if_neg hp]
    · show item_evolves fails p.1 p.2
        (if (p.1 == fid) = true then (p.1, f p.2) else p).2
      rw [if_neg hp]
      exact Or.inl rfl

/-- Lookups transport along a map evolution. -/
theorem struct_evolves_lookup {fails : String → Option CalcErr}
    {s s' : DriveStructure} (h : struct_evolves fails s s') (k : String)
    (it : DriveItem) (hl : lookupItem s k = some it) :
    ∃ it', lookupItem s' k = some it' ∧ item_evolves fails k it it' :=
  forall2_keyrel_lookup _ h k it hl

/-- A map evolution keeps the key list. -/
theorem struct_evolves_keys {fails : String → Option CalcErr}
    {s s' : DriveStructure} (h : struct_evolves fails s s') :
    s'.all_items.map Prod.fst = s.all_items.map Prod.fst :=
  forall2_keyrel_keys _ h

/-- An item whose aggregation raises is never modified by a map evolution. -/
theorem struct_evolves_fixed {fails : String → Option CalcErr}
    {s s' : DriveStructure} (h : struct_evolves fails s s') (k : String)
    (e : CalcErr) (hf : fails k = some e) (it : DriveItem)
    (hl : lookupItem s k = some it) : lookupItem s' k = some it := by
  rcases struct_evolves_lookup h k it hl with ⟨it', hl', hev⟩
  rcases hev with rfl | ⟨hnone, _, _, _⟩
  · exact hl'
  · rw [hf] at hnone
    cases hnone

/-- Transitivity of per-item loop evolution. -/
theorem item_evolves_loop_trans {a b c : DriveItem}
    (h1 : item_evolves_loop a b) (h2 : item_evolves_loop b c) :
    item_evolves_loop a c := by
  rcases h2 with rfl | ⟨hs, hc, ht⟩
  · exact h1
  · rcases h1 with rfl | ⟨_, _, ht1⟩
    · exact Or.inr ⟨hs, hc, ht⟩
    · exact Or.inr ⟨hs, hc, ht.trans ht1⟩

/-- Loop evolution preserves a non-null calculated size. -/
theorem item_evolves_loop_isSome {a b : DriveItem} (h : item_evolves_loop a b)
    (hs : a.calculated_size.isSome = true) :
    b.calculated_size.isSome = true := by
  rcases h with rfl | ⟨h2, _, _⟩
  · exact hs
  · exact h2

/-- Loop evolution preserves the pair of a non-null size with a completed
scan. -/
theorem item_evolves_loop_done {a b : DriveItem} (h : item_evolves_loop a b)
    (hs : a.calculated_size.isSome = true) (hc : a.scan_complete = true) :
    b.calculated_size.isSome = true ∧ b.scan_complete = true := by
  rcases h with rfl | ⟨h2, h3, _⟩
  · exact ⟨hs, hc⟩
  · exact ⟨h2, h3⟩

/-- Loop-level map evolution is reflexive. -/
theorem loop_evolves_refl (s : DriveStructure) : loop_evolves s s := by
  unfold loop_evolves
  exact forall2_keyrel_refl (fun _ a b => item_evolves_loop a b)
    (fun _ _ => Or.inl rfl) s.all_items

/-- Loop-level map evolution is transitive. -/
theorem loop_evolves_trans {s1 s2 s3 : DriveStructure}
    (h1 : loop_evolves s1 s2) (h2 : loop_evolves s2 s3) :
    loop_evolves s1 s3 := by
  unfold loop_evolves at h1 h2 ⊢
  exact forall2_keyrel_trans (fun _ a b => item_evolves_loop a b)
    (fun k a b c ha hb => item_evolves_loop_trans ha hb) h1 h2

/-- A recursive-call evolution is also a loop-level evolution. -/
theorem struct_evolves_to_loop {fails : String → Option CalcErr}
    {s s' : DriveStructure} (h : struct_evolves fails s s') :
    loop_evolves s s' := by
  unfold struct_evolves at h
  unfold loop_evolves
  exact forall2_keyrel_imp (item_evolves fails)
    (fun _ a b => item_evolves_loop a b)
    (fun _ _ _ hr => hr.imp id (fun hh => ⟨hh.2.1, hh.2.2.1, hh.2.2.2⟩)) h

/-- Marking one folder complete is a loop-level evolution. -/
theorem loop_evolves_update (s : DriveStructure) (fid : String)
    (f : DriveItem → DriveItem)
    (hset : ∀ it : DriveItem, (f it).calculated_size.isSome = true ∧
      (f it).scan_complete = true ∧ (f it).type = it.type) :
    loop_evolves s (updateItem s fid f) := by
  unfold loop_evolves
  have hglue : (updateItem s fid f).all_items =
      s.all_items.map (fun p => if p.1 == fid then (p.1, f p.2) else p) := rfl
  rw [hglue]
  apply forall2_keyrel_of_map (fun _ a b => item_evolves_loop a b)
  intro p
  by_cases hp : (p.1 == fid) = true
  · constructor
    · show (if (p.1 == fid) = true then (p.1, f p.2) else p).1 = p.1
      rw [if_pos hp]
    · show item_evolves_loop p.2 (if (p.1 == fid) = true then (p.1, f p.2) else p).2
      rw [if_pos hp]
      exact Or.inr ⟨(hset p.2).1, (hset p.2).2.1, (hset p.2).2.2⟩
  · constructor
    · show (if (p.1 == fid) = true then (p.1, f p.2) else p).1 = p.1
      rw [if_neg hp]
    · show item_evolves_loop p.2 (if (p.1 == fid) = true then (p.1, f p.2) else p).2
      rw [if_neg hp]
      exact Or.inl rfl

/-- Lookups transport along a loop-level evolution. -/
theorem loop_evolves_lookup {s s' : DriveStructure} (h : loop_evolves s s')
    (k : String) (it : DriveItem) (hl : lookupItem s k = some it) :
    ∃ it', lookupItem s' k = some it' ∧ item_evolves_loop it it' := by
  unfold loop_evolves at h
  exact forall2_keyrel_lookup (fun _ a b => item_evolves_loop a b) h k it hl

/-- A loop-level evolution keeps the key list. -/
theorem loop_evolves_keys {s s' : DriveStructure} (h : loop_evolves s s') :
    s'.all_items.map Prod.fst = s.all_items.map Prod.fst := by
  unfold loop_evolves at h
  exact forall2_keyrel_keys (fun _ a b => item_evolves_loop a b) h

/-- Every entry of the evolved map descends from one of the original map. -/
theorem loop_evolves_mem_rev {s s' : DriveStructure} (h : loop_evolves s s') :
    ∀ p' ∈ s'.all_items, ∃ p ∈ s.all_items,
      p'.1 = p.1 ∧ item_evolves_loop p.2 p'.2 := by
  unfold loop_evolves at h
  exact forall2_keyrel_mem_rev (fun _ a b => item_evolves_loop a b) h

/-- A sound memo stays sound after inserting a key whose item has a non-null
size. -/
theorem memo_ok_insert (s : DriveStructure) (cs cs' : CalcState) (fid : String)
    (v : Int)
    (hcs : cs'.calculated_folders = assocInsert cs.calculated_folders fid v)
    (hm : memo_ok s cs)
    (hit : ∃ it, lookupItem s fid = some it ∧ it.calculated_size.isSome = true) :
    memo_ok s cs' := by
  intro k w hk
  rw [hcs] at hk
  by_cases hkf : k = fid
  · subst hkf
    exact hit
  · rw [assocFind_insert_ne _ _ _ _ hkf] at hk
    exact hm k w hk

/-- A sound memo stays sound across a map evolution. -/
theorem memo_ok_evolves {fails : String → Option CalcErr}
    {s s' : DriveStructure} {cs cs' : CalcState}
    (hev : struct_evolves fails s s')
    (hcs : cs'.calculated_folders = cs.calculated_folders)
    (hm : memo_ok s cs) : memo_ok s' cs' := by
  intro k w hk
  rw [hcs] at hk
  rcases hm k w hk with ⟨it, hl, hs⟩
  rcases struct_evolves_lookup hev k it hl with ⟨it', hl', hrel⟩
  exact ⟨it', hl', item_evolves_isSome hrel hs⟩

/-- A sound memo stays sound after marking any folder with a non-null size. -/
theorem memo_ok_update (s : DriveStructure) (cs : CalcState) (fid : String)
    (f : DriveItem → DriveItem)
    (hset : ∀ it : DriveItem, (f it).calculated_size.isSome = true)
    (hm : memo_ok s cs) : memo_ok (updateItem s fid f) cs := by
  intro k w hk
  rcases hm k w hk with ⟨it, hl, hs⟩
  by_cases hkf : k = fid
  · subst hkf
    exact ⟨f it, lookupItem_update_self s k f it hl, hset it⟩
  · exact ⟨it, by rw [lookupItem_update_ne s fid f k hkf]; exact hl, hs⟩

/-- The call postcondition is reflexive on a sound state. -/
theorem rec_ev_post_refl (fails : String → Option CalcErr)
    (s : DriveStructure) (cs : CalcState) (hm : memo_ok s cs) :
    rec_ev_post fails s cs s cs :=
  ⟨struct_evolves_refl fails s, rfl, hm, rfl, rfl, rfl⟩

/-- The call postcondition composes. -/
theorem rec_ev_post_trans {fails : String → Option CalcErr}
    {s : DriveStructure} {cs : CalcState} {s' : DriveStructure}
    {cs' : CalcState} {s'' : DriveStructure} {cs'' : CalcState}
    (h1 : rec_ev_post fails s cs s' cs')
    (h2 : rec_ev_post fails s' cs' s'' cs'') :
    rec_ev_post fails s cs s'' cs'' :=
  ⟨struct_evolves_trans h1.1 h2.1, h2.2.1.trans h1.2.1, h2.2.2.1,
   h2.2.2.2.1.trans h1.2.2.2.1, h2.2.2.2.2.1.trans h1.2.2.2.2.1,
   h2.2.2.2.2.2.trans h1.2.2.2.2.2⟩

/-- Postcondition of the first children loop, given the postcondition of
the recursive call it invokes: the map evolves, the in-progress set and
error counters are untouched, the memo stays sound, and any raised error
originates in the fault oracle. -/
theorem children_pass_main (fails : String → Option CalcErr)
    (recurse : String → DriveStructure → CalcState → CalcResult)
    (hrec : ∀ fid s cs, memo_ok s cs →
      rec_ev_post fails s cs (calc_result_struct (recurse fid s cs))
        (calc_result_state (recurse fid s cs)) ∧
      (∀ e s' cs', recurse fid s cs = Except.error (e, s', cs') →
        ∃ k, fails k = some e)) :
    ∀ (children : List String) (ts fc foc : Int) (s : DriveStructure)
      (cs : CalcState), memo_ok s cs →
      rec_ev_post fails s cs
        (child_result_struct (children_pass recurse children ts fc foc s cs))
        (child_result_state (children_pass recurse children ts fc foc s cs)) ∧
      (∀ e s' cs',
        children_pass recurse children ts fc foc s cs =
          Except.error (e, s', cs') → ∃ k, fails k = some e) := by
  intro children
  induction children with
  | nil =>
    intro ts fc foc s cs hm
    refine ⟨rec_ev_post_refl fails s cs hm, ?_⟩
    intro e s' cs' h
    simp [children_pass] at h
  | cons cid rest ih =>
    intro ts fc foc s cs hm
    cases hlc : lookupItem s cid with
    | none =>
      have hstep : children_pass recurse (cid :: rest) ts fc foc s cs =
          children_pass recurse rest ts fc foc s cs := by
        simp only [children_pass]
        rw [hlc]
      rw [hstep]
      exact ih ts fc foc s cs hm
    | some child =>
      by_cases hf : child.is_folder = true
      · cases hre : recurse cid s cs with
        | error epack =>
          obtain ⟨e0, sE, csE⟩ := epack
          have hstep : children_pass recurse (cid :: rest) ts fc foc s cs =
              Except.error (e0, sE, csE) := by
            simp only [children_pass]
            rw [hlc]
            simp [hf, hre]
          rw [hstep]
          have h1 := hrec cid s cs hm
          have hpost : rec_ev_post fails s cs sE csE := by
            have h2 := h1.1
            rw [hre] at h2
            simpa [calc_result_struct, calc_result_state] using h2
          refine ⟨?_, ?_⟩
          · simpa [child_result_struct, child_result_state] using hpost
          · intro e s' cs' heq
            have heq' : e0 = e ∧ sE = s' ∧ csE = cs' := by
              simpa [Prod.ext_iff] using heq
            exact heq'.1 ▸ h1.2 e0 sE csE hre
        | ok okpack =>
          obtain ⟨sz, s1, cs1⟩ := okpack
          have hstep : children_pass recurse (cid :: rest) ts fc foc s cs =
              children_pass recurse rest (ts + sz) fc (foc + 1) s1 cs1 := by
            simp only [children_pass]
            rw [hlc]
            simp [hf, hre]
          rw [hstep]
          have h1 := hrec cid s cs hm
          have hpost : rec_ev_post fails s cs s1 cs1 := by
            have h2 := h1.1
            rw [hre] at h2
            simpa [calc_result_struct, calc_result_state] using h2
          have h2 := ih (ts + sz) fc (foc + 1) s1 cs1 hpost.2.2.1
          exact ⟨rec_ev_post_trans hpost h2.1, h2.2⟩
      · have hstep : children_pass recurse (cid :: rest) ts fc foc s cs =
            children_pass recurse rest (ts + child.size) (fc + 1) foc s cs := by
          simp only [children_pass]
          rw [hlc]
          simp [hf]
        rw [hstep]
        exact ih (ts + child.size) (fc + 1) foc s cs hm

/-- Postcondition of the in-memory freshness hit: nothing changes except a
memo entry and a cache-hit count. -/
theorem calc_inmem_post (fails : String → Option CalcErr) (cfg : CacheConfig)
    (now : Int) (fid : String) (s : DriveStructure) (cs : CalcState)
    (folder : DriveItem) (c2 : DriveCache) (hm : memo_ok s cs)
    (hlook : lookupItem s fid = some folder)
    (hmem : (folder.calculated_size.isSome &&
      !(should_recalculate cfg now s folder)) = true) :
    rec_ev_post fails s cs s
      { cs with
        stats := { cs.stats with cache_hits := cs.stats.cache_hits + 1 },
        calculated_folders :=
          assocInsert cs.calculated_folders fid (folder.calculated_size.getD 0),
        cache := c2 } ∧
    (∃ it', lookupItem s fid = some it' ∧
      it'.calculated_size.isSome = true) := by
  have hsome : folder.calculated_size.isSome = true :=
    (Bool.and_eq_true_iff.mp hmem).1
  constructor
  · refine ⟨struct_evolves_refl fails s, rfl, ?_, rfl, rfl, rfl⟩
    exact memo_ok_insert s cs _ fid (folder.calculated_size.getD 0) rfl hm
      ⟨folder, hlook, hsome⟩
  · exact ⟨folder, hlook, hsome⟩

/-- Postcondition of the error path of the compute branch: the `finally`
discard restores the in-progress set around the propagated exception. -/
theorem calc_error_unwind (fails : String → Option CalcErr)
    (s : DriveStructure) (cs : CalcState) (fid : String)
    (sE : DriveStructure) (csE : CalcState)
    (hev : struct_evolves fails s sE)
    (hproc : csE.processing_folders = fid :: cs.processing_folders)
    (hmemo : memo_ok sE csE)
    (hp1 : csE.stats.permission_errors = cs.stats.permission_errors)
    (hp2 : csE.stats.errors_encountered = cs.stats.errors_encountered)
    (hp3 : csE.stats.rate_limit_errors = cs.stats.rate_limit_errors) :
    rec_ev_post fails s cs sE
      { csE with processing_folders := csE.processing_folders.erase fid } := by
  refine ⟨hev, ?_, hmemo, hp1, hp2, hp3⟩
  show csE.processing_folders.erase fid = cs.processing_folders
  rw [hproc, List.erase_cons_head]

/-- Postcondition of the commit path of the compute branch. -/
theorem calc_commit_post (fails : String → Option CalcErr)
    (fid : String) (s : DriveStructure) (cs : CalcState) (folder : DriveItem)
    (ts : Int) (s1 : DriveStructure) (cs3 : CalcState) (cache2 : DriveCache)
    (g : DriveItem → DriveItem)
    (hg : ∀ it : DriveItem, (g it).calculated_size.isSome = true ∧
      (g it).scan_complete = true ∧ (g it).type = it.type)
    (hfail : fails fid = none)
    (hlook : lookupItem s fid = some folder)
    (hev : struct_evolves fails s s1)
    (hproc : cs3.processing_folders = fid :: cs.processing_folders)
    (hmemo : memo_ok s1 cs3)
    (hp1 : cs3.stats.permission_errors = cs.stats.permission_errors)
    (hp2 : cs3.stats.errors_encountered = cs.stats.errors_encountered)
    (hp3 : cs3.stats.rate_limit_errors = cs.stats.rate_limit_errors) :
    rec_ev_post fails s cs (updateItem s1 fid g)
      { stats := { cs3.stats with
          processed_items := cs3.stats.processed_items + 1,
          total_size_calculated := cs3.stats.total_size_calculated + ts },
        calculated_folders := assocInsert cs3.calculated_folders fid ts,
        processing_folders := cs3.processing_folders.erase fid,
        cache := cache2 } ∧
    (∃ it', lookupItem (updateItem s1 fid g) fid = some it' ∧
      it'.calculated_size.isSome = true) := by
  rcases struct_evolves_lookup hev fid folder hlook with ⟨it1, hl1, _⟩
  have hfound : lookupItem (updateItem s1 fid g) fid = some (g it1) :=
    lookupItem_update_self s1 fid g it1 hl1
  constructor
  · refine ⟨struct_evolves_trans hev
      (struct_evolves_update fails s1 fid g hfail hg), ?_, ?_, hp1, hp2, hp3⟩
    · show cs3.processing_folders.erase fid = cs.processing_folders
      rw [hproc, List.erase_cons_head]
    · have hupd : memo_ok (updateItem s1 fid g) cs3 :=
        memo_ok_update s1 cs3 fid g (fun it => (hg it).1) hmemo
      exact memo_ok_insert _ cs3 _ fid ts rfl hupd
        ⟨g it1, hfound, (hg it1).1⟩
  · exact ⟨g it1, hfound, (hg it1).1⟩

/-- Main postcondition of `_calculate_folder_size_recursive`: the map
evolves pointwise, the in-progress set is restored, the memo stays sound,
the error counters are untouched, every raised error originates in the
fault oracle, and a normal return on a folder not already in progress
leaves that folder with a non-null `calculated_size` (fuel permitting). -/
theorem calc_rec_main (fails : String → Option CalcErr) (cfg : CacheConfig)
    (now : Int) :
    ∀ (fuel : Nat) (fid : String) (s : DriveStructure) (cs : CalcState),
      memo_ok s cs →
      rec_ev_post fails s cs
        (calc_result_struct
          (calculate_folder_size_recursive fails cfg now fuel fid s cs))
        (calc_result_state
          (calculate_folder_size_recursive fails cfg now fuel fid s cs)) ∧
      (∀ e s' cs',
        calculate_folder_size_recursive fails cfg now fuel fid s cs =
          Except.error (e, s', cs') → ∃ k, fails k = some e) ∧
      (∀ v s' cs',
        calculate_folder_size_recursive fails cfg now fuel fid s cs =
          Except.ok (v, s', cs') →
        ¬ fid ∈ cs.processing_folders → ¬ fuel = 0 →
        ∀ it, lookupItem s fid = some it →
          ∃ it', lookupItem s' fid = some it' ∧
            it'.calculated_size.isSome = true) := by
  intro fuel
  induction fuel with
  | zero =>
    intro fid s cs hm
    refine ⟨rec_ev_post_refl fails s cs hm, ?_, ?_⟩
    · intro e s' cs' h
      simp [calculate_folder_size_recursive] at h
    · intro v s' cs' h hnp hnf it hit
      exact absurd rfl hnf
  | succ n ih =>
    intro fid s cs hm
    have hch := children_pass_main fails
      (calculate_folder_size_recursive fails cfg now n)
      (fun fid' s' cs' hm' =>
        ⟨(ih fid' s' cs' hm').1, (ih fid' s' cs' hm').2.1⟩)
    cases hguard : cs.processing_folders.contains fid with
    | true =>
      have hstep : calculate_folder_size_recursive fails cfg now (n + 1) fid s cs =
          Except.ok (0, s, cs) := by
        simp only [calculate_folder_size_recursive, hguard, if_true]
      rw [hstep]
      refine ⟨rec_ev_post_refl fails s cs hm, ?_, ?_⟩
      · intro e s' cs' h
        simp at h
      · intro v s' cs' h hnp hnf it hit
        exact absurd (List.mem_of_elem_eq_true hguard) hnp
    | false =>
      cases hfail : fails fid with
      | some e0 =>
        have hstep : calculate_folder_size_recursive fails cfg now (n + 1) fid s cs =
            Except.error (e0, s, cs) := by
          simp only [calculate_folder_size_recursive, hguard, hfail,
            Bool.false_eq_true, if_false]
        rw [hstep]
        refine ⟨rec_ev_post_refl fails s cs hm, ?_, ?_⟩
        · intro e s' cs' h
          have heq : e0 = e ∧ s = s' ∧ cs = cs' := by
            simpa [Prod.ext_iff] using h
          exact ⟨fid, heq.1 ▸ hfail⟩
        · intro v s' cs' h
          simp at h
      | none =>
        cases hmf : assocFind cs.calculated_folders fid with
        | some v0 =>
          have hstep : calculate_folder_size_recursive fails cfg now (n + 1) fid s cs =
              Except.ok (v0, s,
                { cs with stats :=
                    { cs.stats with cache_hits := cs.stats.cache_hits + 1 } }) := by
            simp only [calculate_folder_size_recursive, hguard, hfail, hmf,
              Bool.false_eq_true, if_false]
          rw [hstep]
          refine ⟨⟨struct_evolves_refl fails s, rfl, ?_, rfl, rfl, rfl⟩, ?_, ?_⟩
          · exact hm
          · intro e s' cs' h
            simp at h
          · intro v s' cs' h hnp hnf it hit
            rcases hm fid v0 hmf with ⟨it0, hl0, hs0⟩
            have hs' : s = s' := by
              simp only [Except.ok.injEq, Prod.mk.injEq] at h
              exact h.2.1
            exact hs' ▸ ⟨it0, hl0, hs0⟩
        | none =>
          cases hlook : lookupItem s fid with
          | none =>
            have hstep : calculate_folder_size_recursive fails cfg now (n + 1) fid s cs =
                Except.ok (0, s, cs) := by
              simp only [calculate_folder_size_recursive, hguard, hfail, hmf,
                hlook, Bool.false_eq_true, if_false]
            rw [hstep]
            refine ⟨rec_ev_post_refl fails s cs hm, ?_, ?_⟩
            · intro e s' cs' h
              simp at h
            · intro v s' cs' h hnp hnf it hit
              simp at hit
          | some folder =>
            cases hg : (get_item now cs.cache fid).1 with
            | some cf =>
              by_cases hcond : (cf.calculated_size.isSome &&
                  !(should_recalculate cfg now s cf)) = true
              · have hsome : cf.calculated_size.isSome = true :=
                  (Bool.and_eq_true_iff.mp hcond).1
                have hstep : calculate_folder_size_recursive fails cfg now (n + 1) fid s cs =
                    Except.ok (cf.calculated_size.getD 0,
                      updateItem s fid (fun f => { f with calculated_size := cf.calculated_size, file_count := cf.file_count, folder_count := cf.folder_count, last_scanned := cf.last_scanned, scan_complete := true }),
                      { cs with
                        stats := { cs.stats with cache_hits := cs.stats.cache_hits + 1 },
                        calculated_folders := assocInsert cs.calculated_folders fid
                          (cf.calculated_size.getD 0),
                        cache := (get_item now cs.cache fid).2 }) := by
                  simp only [calculate_folder_size_recursive, hguard, hfail, hmf,
                    hlook, hg, hcond, Bool.false_eq_true, if_false, if_true]
                rw [hstep]
                simp only [calc_result_struct, calc_result_state]
                have hupd : memo_ok
                    (updateItem s fid (fun f => { f with calculated_size := cf.calculated_size, file_count := cf.file_count, folder_count := cf.folder_count, last_scanned := cf.last_scanned, scan_complete := true })) cs :=
                  memo_ok_update s cs fid _ (fun it => hsome) hm
                have hfound := lookupItem_update_self s fid (fun f => { f with calculated_size := cf.calculated_size, file_count := cf.file_count, folder_count := cf.folder_count, last_scanned := cf.last_scanned, scan_complete := true }) folder hlook
                refine ⟨⟨?_, rfl, ?_, rfl, rfl, rfl⟩, ?_, ?_⟩
                · exact struct_evolves_update fails s fid _ hfail
                    (fun it => ⟨hsome, rfl, rfl⟩)
                · exact memo_ok_insert _ cs _ fid (cf.calculated_size.getD 0) rfl
                    hupd ⟨_, hfound, hsome⟩
                · intro e s' cs' h
                  simp at h
                · intro v s' cs' h hnp hnf it hit
                  have hs' : updateItem s fid (fun f => { f with calculated_size := cf.calculated_size, file_count := cf.file_count, folder_count := cf.folder_count, last_scanned := cf.last_scanned, scan_complete := true }) = s' := by
                    simp only [Except.ok.injEq, Prod.mk.injEq] at h
                    exact h.2.1
                  exact hs' ▸ ⟨_, hfound, hsome⟩
              · by_cases hmem2 : (folder.calculated_size.isSome &&
                    !(should_recalculate cfg now s folder)) = true
                · have hstep : calculate_folder_size_recursive fails cfg now (n + 1) fid s cs =
                      Except.ok (folder.calculated_size.getD 0, s,
                        { cs with
                          stats := { cs.stats with cache_hits := cs.stats.cache_hits + 1 },
                          calculated_folders := assocInsert cs.calculated_folders fid
                            (folder.calculated_size.getD 0),
                          cache := (get_item now cs.cache fid).2 }) := by
                      simp only [calculate_folder_size_recursive, hguard, hfail, hmf,
                        hlook, hg, hcond, hmem2, Bool.false_eq_true, if_false, if_true]
                  rw [hstep]
                  simp only [calc_result_struct, calc_result_state]
                  have hpost := calc_inmem_post fails cfg now fid s cs folder
                    ((get_item now cs.cache fid).2) hm hlook hmem2
                  refine ⟨hpost.1, ?_, ?_⟩
                  · intro e s' cs' h
                    simp at h
                  · intro v s' cs' h hnp hnf it hit
                    have hs' : s = s' := by
                      simp only [Except.ok.injEq, Prod.mk.injEq] at h
                      exact h.2.1
                    exact hs' ▸ hpost.2
                · cases hcp : children_pass
                      (calculate_folder_size_recursive fails cfg now n)
                      folder.children 0 0 0 s
                      { cs with
                        processing_folders := fid :: cs.processing_folders,
                        cache := (get_item now cs.cache fid).2 } with
                  | error epack =>
                    obtain ⟨e0, sE, csE⟩ := epack
                    have hchr := hch folder.children 0 0 0 s
                      { cs with
                        processing_folders := fid :: cs.processing_folders,
                        cache := (get_item now cs.cache fid).2 } hm
                    have hpost : rec_ev_post fails s
                        { cs with
                          processing_folders := fid :: cs.processing_folders,
                          cache := (get_item now cs.cache fid).2 } sE csE := by
                      have h2 := hchr.1
                      rw [hcp] at h2
                      simpa [child_result_struct, child_result_state] using h2
                    have hstep : calculate_folder_size_recursive fails cfg now (n + 1) fid s cs =
                        Except.error (e0, sE,
                          { csE with processing_folders :=
                              csE.processing_folders.erase fid }) := by
                      simp only [calculate_folder_size_recursive, hguard, hfail, hmf,
                        hlook, hg, hcond, hmem2, hcp, Bool.false_eq_true, if_false, if_true]
                    rw [hstep]
                    simp only [calc_result_struct, calc_result_state]
                    refine ⟨calc_error_unwind fails s cs fid sE csE hpost.1
                      hpost.2.1 hpost.2.2.1 hpost.2.2.2.1 hpost.2.2.2.2.1
                      hpost.2.2.2.2.2, ?_, ?_⟩
                    · intro e s' cs' h
                      simp only [Except.error.injEq, Prod.mk.injEq] at h
                      exact h.1 ▸ hchr.2 e0 sE csE hcp
                    · intro v s' cs' h
                      simp at h
                  | ok okpack =>
                    obtain ⟨ts0, fc0, foc0, s1, cs3⟩ := okpack
                    have hchr := hch folder.children 0 0 0 s
                      { cs with
                        processing_folders := fid :: cs.processing_folders,
                        cache := (get_item now cs.cache fid).2 } hm
                    have hpost : rec_ev_post fails s
                        { cs with
                          processing_folders := fid :: cs.processing_folders,
                          cache := (get_item now cs.cache fid).2 } s1 cs3 := by
                      have h2 := hchr.1
                      rw [hcp] at h2
                      simpa [child_result_struct, child_result_state] using h2
                    have hfin : ∀ cache2 : DriveCache,
                        rec_ev_post fails s cs
                          (updateItem s1 fid (fun f => { f with calculated_size := some ts0, file_count := (nested_counts s1 folder.children fc0 foc0).1, folder_count := (nested_counts s1 folder.children fc0 foc0).2, last_scanned := some now, scan_complete := true }))
                          { stats := { cs3.stats with
                              processed_items := cs3.stats.processed_items + 1,
                              total_size_calculated :=
                                cs3.stats.total_size_calculated + ts0 },
                            calculated_folders :=
                              assocInsert cs3.calculated_folders fid ts0,
                            processing_folders := cs3.processing_folders.erase fid,
                            cache := cache2 } ∧
                        (∃ it', lookupItem (updateItem s1 fid (fun f => { f with calculated_size := some ts0, file_count := (nested_counts s1 folder.children fc0 foc0).1, folder_count := (nested_counts s1 folder.children fc0 foc0).2, last_scanned := some now, scan_complete := true })) fid = some it' ∧
                          it'.calculated_size.isSome = true) := by
                      intro cache2
                      exact calc_commit_post fails fid s cs folder ts0 s1 cs3 cache2
                        (fun f => { f with calculated_size := some ts0, file_count := (nested_counts s1 folder.children fc0 foc0).1, folder_count := (nested_counts s1 folder.children fc0 foc0).2, last_scanned := some now, scan_complete := true })
                        (fun it => ⟨rfl, rfl, rfl⟩) hfail hlook hpost.1 hpost.2.1
                        hpost.2.2.1 hpost.2.2.2.1 hpost.2.2.2.2.1 hpost.2.2.2.2.2
                    by_cases henb : cfg.enabled = true
                    · cases hlu : lookupItem (updateItem s1 fid (fun f => { f with calculated_size := some ts0, file_count := (nested_counts s1 folder.children fc0 foc0).1, folder_count := (nested_counts s1 folder.children fc0 foc0).2, last_scanned := some now, scan_complete := true })) fid with
                      | some updated =>
                        have hstep : calculate_folder_size_recursive fails cfg now (n + 1) fid s cs =
                            Except.ok (ts0,
                              updateItem s1 fid (fun f => { f with calculated_size := some ts0, file_count := (nested_counts s1 folder.children fc0 foc0).1, folder_count := (nested_counts s1 folder.children fc0 foc0).2, last_scanned := some now, scan_complete := true }),
                              { stats := { cs3.stats with
                                  processed_items := cs3.stats.processed_items + 1,
                                  total_size_calculated :=
                                    cs3.stats.total_size_calculated + ts0 },
                                calculated_folders :=
                                  assocInsert cs3.calculated_folders fid ts0,
                                processing_folders :=
                                  cs3.processing_folders.erase fid,
                                cache := (cache_item now cs3.cache updated).2 }) := by
                          simp only [calculate_folder_size_recursive, hguard, hfail,
                            hmf, hlook, hg, hcond, hmem2, hcp, henb, hlu,
                            Bool.false_eq_true, if_false, if_true]
                        rw [hstep]
                        simp only [calc_result_struct, calc_result_state]
                        have hcm := hfin ((cache_item now cs3.cache updated).2)
                        refine ⟨hcm.1, ?_, ?_⟩
                        · intro e s' cs' h
                          simp at h
                        · intro v s' cs' h hnp hnf it hit
                          have hs' : updateItem s1 fid (fun f => { f with calculated_size := some ts0, file_count := (nested_counts s1 folder.children fc0 foc0).1, folder_count := (nested_counts s1 folder.children fc0 foc0).2, last_scanned := some now, scan_complete := true }) = s' := by
                            simp only [Except.ok.injEq, Prod.mk.injEq] at h
                            exact h.2.1
                          exact hs' ▸ hcm.2
                      | none =>
                        have hstep : calculate_folder_size_recursive fails cfg now (n + 1) fid s cs =
                            Except.ok (ts0,
                              updateItem s1 fid (fun f => { f with calculated_size := some ts0, file_count := (nested_counts s1 folder.children fc0 foc0).1, folder_count := (nested_counts s1 folder.children fc0 foc0).2, last_scanned := some now, scan_complete := true }),
                              { stats := { cs3.stats with
                                  processed_items := cs3.stats.processed_items + 1,
                                  total_size_calculated :=
                                    cs3.stats.total_size_calculated + ts0 },
                                calculated_folders :=
                                  assocInsert cs3.calculated_folders fid ts0,
                                processing_folders :=
                                  cs3.processing_folders.erase fid,
                                cache := cs3.cache }) := by
                          simp only [calculate_folder_size_recursive, hguard, hfail,
                            hmf, hlook, hg, hcond, hmem2, hcp, henb, hlu,
                            Bool.false_eq_true, if_false, if_true]
                        rw [hstep]
                        simp only [calc_result_struct, calc_result_state]
                        have hcm := hfin cs3.cache
                        refine ⟨hcm.1, ?_, ?_⟩
                        · intro e s' cs' h
                          simp at h
                        · intro v s' cs' h hnp hnf it hit
                          have hs' : updateItem s1 fid (fun f => { f with calculated_size := some ts0, file_count := (nested_counts s1 folder.children fc0 foc0).1, folder_count := (nested_counts s1 folder.children fc0 foc0).2, last_scanned := some now, scan_complete := true }) = s' := by
                            simp only [Except.ok.injEq, Prod.mk.injEq] at h
                            exact h.2.1
                          exact hs' ▸ hcm.2
                    · have hstep : calculate_folder_size_recursive fails cfg now (n + 1) fid s cs =
                          Except.ok (ts0,
                            updateItem s1 fid (fun f => { f with calculated_size := some ts0, file_count := (nested_counts s1 folder.children fc0 foc0).1, folder_count := (nested_counts s1 folder.children fc0 foc0).2, last_scanned := some now, scan_complete := true }),
                            { stats := { cs3.stats with
                                processed_items := cs3.stats.processed_items + 1,
                                total_size_calculated :=
                                  cs3.stats.total_size_calculated + ts0 },
                              calculated_folders :=
                                assocInsert cs3.calculated_folders fid ts0,
                              processing_folders :=
                                cs3.processing_folders.erase fid,
                              cache := cs3.cache }) := by
                        simp only [calculate_folder_size_recursive, hguard, hfail,
                          hmf, hlook, hg, hcond, hmem2, hcp, henb,
                          Bool.false_eq_true, if_false, if_true]
                      rw [hstep]
                      simp only [calc_result_struct, calc_result_state]
                      have hcm := hfin cs3.cache
                      refine ⟨hcm.1, ?_, ?_⟩
                      · intro e s' cs' h
                        simp at h
                      · intro v s' cs' h hnp hnf it hit
                        have hs' : updateItem s1 fid (fun f => { f with calculated_size := some ts0, file_count := (nested_counts s1 folder.children fc0 foc0).1, folder_count := (nested_counts s1 folder.children fc0 foc0).2, last_scanned := some now, scan_complete := true }) = s' := by
                          simp only [Except.ok.injEq, Prod.mk.injEq] at h
                          exact h.2.1
                        exact hs' ▸ hcm.2
            | none =>
              by_cases hmem2 : (folder.calculated_size.isSome &&
                  !(should_recalculate cfg now s folder)) = true
              · have hstep : calculate_folder_size_recursive fails cfg now (n + 1) fid s cs =
                    Except.ok (folder.calculated_size.getD 0, s,
                      { cs with
                        stats := { cs.stats with cache_hits := cs.stats.cache_hits + 1 },
                        calculated_folders := assocInsert cs.calculated_folders fid
                          (folder.calculated_size.getD 0),
                        cache := (get_item now cs.cache fid).2 }) := by
                    simp only [calculate_folder_size_recursive, hguard, hfail, hmf,
                      hlook, hg, hmem2, Bool.false_eq_true, if_false, if_true]
                rw [hstep]
                simp only [calc_result_struct, calc_result_state]
                have hpost := calc_inmem_post fails cfg now fid s cs folder
                  ((get_item now cs.cache fid).2) hm hlook hmem2
                refine ⟨hpost.1, ?_, ?_⟩
                · intro e s' cs' h
                  simp at h
                · intro v s' cs' h hnp hnf it hit
                  have hs' : s = s' := by
                    simp only [Except.ok.injEq, Prod.mk.injEq] at h
                    exact h.2.1
                  exact hs' ▸ hpost.2
              · cases hcp : children_pass
                    (calculate_folder_size_recursive fails cfg now n)
                    folder.children 0 0 0 s
                    { cs with
                      processing_folders := fid :: cs.processing_folders,
                      cache := (get_item now cs.cache fid).2 } with
                | error epack =>
                  obtain ⟨e0, sE, csE⟩ := epack
                  have hchr := hch folder.children 0 0 0 s
                    { cs with
                      processing_folders := fid :: cs.processing_folders,
                      cache := (get_item now cs.cache fid).2 } hm
                  have hpost : rec_ev_post fails s
                      { cs with
                        processing_folders := fid :: cs.processing_folders,
                        cache := (get_item now cs.cache fid).2 } sE csE := by
                    have h2 := hchr.1
                    rw [hcp] at h2
                    simpa [child_result_struct, child_result_state] using h2
                  have hstep : calculate_folder_size_recursive fails cfg now (n + 1) fid s cs =
                      Except.error (e0, sE,
                        { csE with processing_folders :=
                            csE.processing_folders.erase fid }) := by
                    simp only [calculate_folder_size_recursive, hguard, hfail, hmf,
                      hlook, hg, hmem2, hcp, Bool.false_eq_true, if_false, if_true]
                  rw [hstep]
                  simp only [calc_result_struct, calc_result_state]
                  refine ⟨calc_error_unwind fails s cs fid sE csE hpost.1
                    hpost.2.1 hpost.2.2.1 hpost.2.2.2.1 hpost.2.2.2.2.1
                    hpost.2.2.2.2.2, ?_, ?_⟩
                  · intro e s' cs' h
                    simp only [Except.error.injEq, Prod.mk.injEq] at h
                    exact h.1 ▸ hchr.2 e0 sE csE hcp
                  · intro v s' cs' h
                    simp at h
                | ok okpack =>
                  obtain ⟨ts0, fc0, foc0, s1, cs3⟩ := okpack
                  have hchr := hch folder.children 0 0 0 s
                    { cs with
                      processing_folders := fid :: cs.processing_folders,
                      cache := (get_item now cs.cache fid).2 } hm
                  have hpost : rec_ev_post fails s
                      { cs with
                        processing_folders := fid :: cs.processing_folders,
                        cache := (get_item now cs.cache fid).2 } s1 cs3 := by
                    have h2 := hchr.1
                    rw [hcp] at h2
                    simpa [child_result_struct, child_result_state] using h2
                  have hfin : ∀ cache2 : DriveCache,
                      rec_ev_post fails s cs
                        (updateItem s1 fid (fun f => { f with calculated_size := some ts0, file_count := (nested_counts s1 folder.children fc0 foc0).1, folder_count := (nested_counts s1 folder.children fc0 foc0).2, last_scanned := some now, scan_complete := true }))
                        { stats := { cs3.stats with
                            processed_items := cs3.stats.processed_items + 1,
                            total_size_calculated :=
                              cs3.stats.total_size_calculated + ts0 },
                          calculated_folders :=
                            assocInsert cs3.calculated_folders fid ts0,
                          processing_folders := cs3.processing_folders.erase fid,
                          cache := cache2 } ∧
                      (∃ it', lookupItem (updateItem s1 fid (fun f => { f with calculated_size := some ts0, file_count := (nested_counts s1 folder.children fc0 foc0).1, folder_count := (nested_counts s1 folder.children fc0 foc0).2, last_scanned := some now, scan_complete := true })) fid = some it' ∧
                        it'.calculated_size.isSome = true) := by
                    intro cache2
                    exact calc_commit_post fails fid s cs folder ts0 s1 cs3 cache2
                      (fun f => { f with calculated_size := some ts0, file_count := (nested_counts s1 folder.children fc0 foc0).1, folder_count := (nested_counts s1 folder.children fc0 foc0).2, last_scanned := some now, scan_complete := true })
                      (fun it => ⟨rfl, rfl, rfl⟩) hfail hlook hpost.1 hpost.2.1
                      hpost.2.2.1 hpost.2.2.2.1 hpost.2.2.2.2.1 hpost.2.2.2.2.2
                  by_cases henb : cfg.enabled = true
                  · cases hlu : lookupItem (updateItem s1 fid (fun f => { f with calculated_size := some ts0, file_count := (nested_counts s1 folder.children fc0 foc0).1, folder_count := (nested_counts s1 folder.children fc0 foc0).2, last_scanned := some now, scan_complete := true })) fid with
                    | some updated =>
                      have hstep : calculate_folder_size_recursive fails cfg now (n + 1) fid s cs =
                          Except.ok (ts0,
                            updateItem s1 fid (fun f => { f with calculated_size := some ts0, file_count := (nested_counts s1 folder.children fc0 foc0).1, folder_count := (nested_counts s1 folder.children fc0 foc0).2, last_scanned := some now, scan_complete := true }),
                            { stats := { cs3.stats with
                                processed_items := cs3.stats.processed_items + 1,
                                total_size_calculated :=
                                  cs3.stats.total_size_calculated + ts0 },
                              calculated_folders :=
                                assocInsert cs3.calculated_folders fid ts0,
                              processing_folders :=
                                cs3.processing_folders.erase fid,
                              cache := (cache_item now cs3.cache updated).2 }) := by
                        simp only [calculate_folder_size_recursive, hguard, hfail,
                          hmf, hlook, hg, hmem2, hcp, henb, hlu,
                          Bool.false_eq_true, if_false, if_true]
                      rw [hstep]
                      simp only [calc_result_struct, calc_result_state]
                      have hcm := hfin ((cache_item now cs3.cache updated).2)
                      refine ⟨hcm.1, ?_, ?_⟩
                      · intro e s' cs' h
                        simp at h
                      · intro v s' cs' h hnp hnf it hit
                        have hs' : updateItem s1 fid (fun f => { f with calculated_size := some ts0, file_count := (nested_counts s1 folder.children fc0 foc0).1, folder_count := (nested_counts s1 folder.children fc0 foc0).2, last_scanned := some now, scan_complete := true }) = s' := by
                          simp only [Except.ok.injEq, Prod.mk.injEq] at h
                          exact h.2.1
                        exact hs' ▸ hcm.2
                    | none =>
                      have hstep : calculate_folder_size_recursive fails cfg now (n + 1) fid s cs =
                          Except.ok (ts0,
                            updateItem s1 fid (fun f => { f with calculated_size := some ts0, file_count := (nested_counts s1 folder.children fc0 foc0).1, folder_count := (nested_counts s1 folder.children fc0 foc0).2, last_scanned := some now, scan_complete := true }),
                            { stats := { cs3.stats with
                                processed_items := cs3.stats.processed_items + 1,
                                total_size_calculated :=
                                  cs3.stats.total_size_calculated + ts0 },
                              calculated_folders :=
                                assocInsert cs3.calculated_folders fid ts0,
                              processing_folders :=
                                cs3.processing_folders.erase fid,
                              cache := cs3.cache }) := by
                        simp only [calculate_folder_size_recursive, hguard, hfail,
                          hmf, hlook, hg, hmem2, hcp, henb, hlu,
                          Bool.false_eq_true, if_false, if_true]
                      rw [hstep]
                      simp only [calc_result_struct, calc_result_state]
                      have hcm := hfin cs3.cache
                      refine ⟨hcm.1, ?_, ?_⟩
                      · intro e s' cs' h
                        simp at h
                      · intro v s' cs' h hnp hnf it hit
                        have hs' : updateItem s1 fid (fun f => { f with calculated_size := some ts0, file_count := (nested_counts s1 folder.children fc0 foc0).1, folder_count := (nested_counts s1 folder.children fc0 foc0).2, last_scanned := some now, scan_complete := true }) = s' := by
                          simp only [Except.ok.injEq, Prod.mk.injEq] at h
                          exact h.2.1
                        exact hs' ▸ hcm.2
                  · have hstep : calculate_folder_size_recursive fails cfg now (n + 1) fid s cs =
                        Except.ok (ts0,
                          updateItem s1 fid (fun f => { f with calculated_size := some ts0, file_count := (nested_counts s1 folder.children fc0 foc0).1, folder_count := (nested_counts s1 folder.children fc0 foc0).2, last_scanned := some now, scan_complete := true }),
                          { stats := { cs3.stats with
                              processed_items := cs3.stats.processed_items + 1,
                              total_size_calculated :=
                                cs3.stats.total_size_calculated + ts0 },
                            calculated_folders :=
                              assocInsert cs3.calculated_folders fid ts0,
                            processing_folders :=
                              cs3.processing_folders.erase fid,
                            cache := cs3.cache }) := by
                      simp only [calculate_folder_size_recursive, hguard, hfail,
                        hmf, hlook, hg, hmem2, hcp, henb,
                        Bool.false_eq_true, if_false, if_true]
                    rw [hstep]
                    simp only [calc_result_struct, calc_result_state]
                    have hcm := hfin cs3.cache
                    refine ⟨hcm.1, ?_, ?_⟩
                    · intro e s' cs' h
                      simp at h
                    · intro v s' cs' h hnp hnf it hit
                      have hs' : updateItem s1 fid (fun f => { f with calculated_size := some ts0, file_count := (nested_counts s1 folder.children fc0 foc0).1, folder_count := (nested_counts s1 folder.children fc0 foc0).2, last_scanned := some now, scan_complete := true }) = s' := by
                        simp only [Except.ok.injEq, Prod.mk.injEq] at h
                        exact h.2.1
                      exact hs' ▸ hcm.2

/-- A successful association lookup means the key occurs in the key list. -/
theorem mem_keys_of_assocFind {α : Type} (l : List (String × α)) (k : String)
    (v : α) (h : assocFind l k = some v) : k ∈ l.map Prod.fst := by
  induction l with
  | nil => simp [assocFind] at h
  | cons x xs ih =>
    rw [List.map_cons]
    by_cases hk : (x.1 == k) = true
    · exact List.mem_cons.mpr (Or.inl (beq_iff_eq.mp hk).symm)
    · rw [assocFind_cons_neg (by simpa using hk)] at h
      exact List.mem_cons.mpr (Or.inr (ih h))

/-- Lookup misses transport along equal key lists. -/
theorem lookup_none_of_keys {s s' : DriveStructure}
    (hk : s'.all_items.map Prod.fst = s.all_items.map Prod.fst)
    (k : String) (h : lookupItem s k = none) : lookupItem s' k = none := by
  cases hfind : lookupItem s' k with
  | none => rfl
  | some v =>
    have hmem : k ∈ s'.all_items.map Prod.fst :=
      mem_keys_of_assocFind s'.all_items k v hfind
    rw [hk] at hmem
    rcases assocFind_of_mem_keys s.all_items k hmem with ⟨w, hw⟩
    have h' : assocFind s.all_items k = none := h
    rw [hw] at h'
    cases h'

/-- The entry of a folder whose aggregation raises is untouched by a map
evolution, present or not. -/
theorem struct_evolves_fixed_opt {fails : String → Option CalcErr}
    {s s' : DriveStructure} (h : struct_evolves fails s s') (k : String)
    (e : CalcErr) (hf : fails k = some e) :
    lookupItem s' k = lookupItem s k := by
  cases hl : lookupItem s k with
  | some it => exact struct_evolves_fixed h k e hf it hl
  | none => exact lookup_none_of_keys (struct_evolves_keys h) k hl

/-- When the fault oracle raises on a folder not currently in progress, one
aggregation call raises that error with structure and state untouched
(calculator.py line 218 propagating through the `except` clauses of
lines 112-135). -/
theorem calc_rec_raises (fails : String → Option CalcErr) (cfg : CacheConfig)
    (now : Int) (n : Nat) (fid : String) (s : DriveStructure) (cs : CalcState)
    (e0 : CalcErr) (hfail : fails fid = some e0)
    (hguard : cs.processing_folders.contains fid = false) :
    calculate_folder_size_recursive fails cfg now (n + 1) fid s cs =
      Except.error (e0, s, cs) := by
  simp only [calculate_folder_size_recursive, hguard, hfail,
    Bool.false_eq_true, if_false]

/-- Main postcondition of the per-folder loop of `calculate_full_drive_sizes`
when every injected fault is a permission error (in particular for the
fault-free program): the ID map evolves loop-wise, the in-progress set stays
empty, the memo stays sound, the permission- and general-error counters are
monotone, every selected folder present in the map ends with a non-null
`calculated_size`, a folder whose aggregation always raises is untouched
unless selected, and a selected always-raising folder ends marked
`calculated_size = 0` and `scan_complete = true` with both error counters at
least 1. -/
theorem loop_main (fails : String → Option CalcErr) (cfg : CacheConfig)
    (now : Int) (n : Nat)
    (hperm : ∀ k e, fails k = some e → e = CalcErr.permission) :
    ∀ (targets : List String) (s : DriveStructure) (cs : CalcState),
      memo_ok s cs → cs.processing_folders = [] →
      loop_evolves s (calculation_loop fails cfg now (n + 1) targets s cs).1 ∧
      (calculation_loop fails cfg now (n + 1) targets s cs).2.processing_folders
        = [] ∧
      memo_ok (calculation_loop fails cfg now (n + 1) targets s cs).1
        (calculation_loop fails cfg now (n + 1) targets s cs).2 ∧
      cs.stats.permission_errors ≤
        (calculation_loop fails cfg now (n + 1) targets s
          cs).2.stats.permission_errors ∧
      cs.stats.errors_encountered ≤
        (calculation_loop fails cfg now (n + 1) targets s
          cs).2.stats.errors_encountered ∧
      (∀ k, k ∈ targets → (∃ it, lookupItem s k = some it) →
        ∃ it', lookupItem
            (calculation_loop fails cfg now (n + 1) targets s cs).1 k
          = some it' ∧ it'.calculated_size.isSome = true) ∧
      (∀ bad e0, fails bad = some e0 → ¬ bad ∈ targets →
        lookupItem (calculation_loop fails cfg now (n + 1) targets s cs).1 bad
          = lookupItem s bad) ∧
      (∀ bad e0, fails bad = some e0 → bad ∈ targets →
        (∃ it, lookupItem s bad = some it) →
        ∃ it', lookupItem
            (calculation_loop fails cfg now (n + 1) targets s cs).1 bad
          = some it' ∧ it'.calculated_size = some 0 ∧
          it'.scan_complete = true) ∧
      (∀ bad e0, fails bad = some e0 → bad ∈ targets →
        1 ≤ (calculation_loop fails cfg now (n + 1) targets s
              cs).2.stats.permission_errors ∧
        1 ≤ (calculation_loop fails cfg now (n + 1) targets s
              cs).2.stats.errors_encountered) := by
  intro targets
  induction targets with
  | nil =>
    intro s cs hm hp
    have h0 : calculation_loop fails cfg now (n + 1) [] s cs = (s, cs) := by
      simp only [calculation_loop]
    rw [h0]
    refine ⟨loop_evolves_refl s, hp, hm, le_refl _, le_refl _, ?_, ?_, ?_, ?_⟩
    · intro k hk
      simp at hk
    · intro bad e0 _ _
      rfl
    · intro bad e0 _ hbad
      simp at hbad
    · intro bad e0 _ hbad
      simp at hbad
  | cons fid rest ih =>
    intro s cs hm hp
    have hrm := calc_rec_main fails cfg now (n + 1) fid s cs hm
    cases hres : calculate_folder_size_recursive fails cfg now (n + 1) fid s cs with
    | ok pack =>
      obtain ⟨v, s1, cs1⟩ := pack
      have hpost : rec_ev_post fails s cs s1 cs1 := by
        have h1 := hrm.1
        rw [hres] at h1
        simpa [calc_result_struct, calc_result_state] using h1
      obtain ⟨hev, hproc, hmemo, hpermeq, herreq, hrateeq⟩ := hpost
      have hp1 : cs1.processing_folders = [] := hproc.trans hp
      have hstep : calculation_loop fails cfg now (n + 1) (fid :: rest) s cs =
          calculation_loop fails cfg now (n + 1) rest s1 cs1 := by
        simp only [calculation_loop, hres]
      rw [hstep]
      obtain ⟨ihev, ihp, ihm, ihperm, iherr, ihtar, ihfix, ihbad, ihcnt⟩ :=
        ih s1 cs1 hmemo hp1
      refine ⟨loop_evolves_trans (struct_evolves_to_loop hev) ihev, ihp, ihm,
        ?_, ?_, ?_, ?_, ?_, ?_⟩
      · rw [← hpermeq]
        exact ihperm
      · rw [← herreq]
        exact iherr
      · intro k hk hexk
        rcases List.mem_cons.mp hk with hkf | hkr
        · subst hkf
          rcases hexk with ⟨it, hit⟩
          have hnp : ¬ k ∈ cs.processing_folders := by
            rw [hp]
            simp
          rcases hrm.2.2 v s1 cs1 hres hnp (Nat.succ_ne_zero n) it hit with
            ⟨it1, hit1, hs1⟩
          rcases loop_evolves_lookup ihev k it1 hit1 with ⟨it2, hit2, hev2⟩
          exact ⟨it2, hit2, item_evolves_loop_isSome hev2 hs1⟩
        · rcases hexk with ⟨it, hit⟩
          rcases struct_evolves_lookup hev k it hit with ⟨it1, hit1, _⟩
          exact ihtar k hkr ⟨it1, hit1⟩
      · intro bad e0 hb hbad
        have hbf : ¬ bad = fid := fun he => hbad (he ▸ List.mem_cons_self fid rest)
        have hbr : ¬ bad ∈ rest := fun he => hbad (List.mem_cons_of_mem fid he)
        rw [ihfix bad e0 hb hbr]
        exact struct_evolves_fixed_opt hev bad e0 hb
      · intro bad e0 hb hbad hexb
        rcases List.mem_cons.mp hbad with hbf | hbr
        · subst hbf
          have hguard0 : cs.processing_folders.contains bad = false := by
            rw [hp]
            rfl
          have hraise := calc_rec_raises fails cfg now n bad s cs e0 hb hguard0
          rw [hraise] at hres
          cases hres
        · rcases hexb with ⟨it, hit⟩
          rcases struct_evolves_lookup hev bad it hit with ⟨it1, hit1, _⟩
          exact ihbad bad e0 hb hbr ⟨it1, hit1⟩
      · intro bad e0 hb hbad
        rcases List.mem_cons.mp hbad with hbf | hbr
        · subst hbf
          have hguard0 : cs.processing_folders.contains bad = false := by
            rw [hp]
            rfl
          have hraise := calc_rec_raises fails cfg now n bad s cs e0 hb hguard0
          rw [hraise] at hres
          cases hres
        · exact ihcnt bad e0 hb hbr
    | error epack =>
      obtain ⟨e0x, s1, cs1⟩ := epack
      have hpe : e0x = CalcErr.permission := by
        rcases hrm.2.1 e0x s1 cs1 hres with ⟨kk, hkk⟩
        exact hperm kk e0x hkk
      subst hpe
      have hpost : rec_ev_post fails s cs s1 cs1 := by
        have h1 := hrm.1
        rw [hres] at h1
        simpa [calc_result_struct, calc_result_state] using h1
      obtain ⟨hev, hproc, hmemo, hpermeq, herreq, hrateeq⟩ := hpost
      have hstep : calculation_loop fails cfg now (n + 1) (fid :: rest) s cs =
          calculation_loop fails cfg now (n + 1) rest
            (updateItem s1 fid (fun f =>
              { f with scan_complete := true, calculated_size := some 0,
                       last_scanned := some now }))
            { cs1 with stats :=
                { cs1.stats with
                  permission_errors := cs1.stats.permission_errors + 1,
                  errors_encountered := cs1.stats.errors_encountered + 1 } } := by
        simp only [calculation_loop, hres]
      rw [hstep]
      have hm2 : memo_ok
          (updateItem s1 fid (fun f =>
            { f with scan_complete := true, calculated_size := some 0,
                     last_scanned := some now }))
          { cs1 with stats :=
              { cs1.stats with
                permission_errors := cs1.stats.permission_errors + 1,
                errors_encountered := cs1.stats.errors_encountered + 1 } } :=
        memo_ok_update s1 _ fid _ (fun it => rfl) (fun k w hk => hmemo k w hk)
      have hp2 : ({ cs1 with stats :=
          { cs1.stats with
            permission_errors := cs1.stats.permission_errors + 1,
            errors_encountered := cs1.stats.errors_encountered + 1 } }
            : CalcState).processing_folders = [] := hproc.trans hp
      obtain ⟨ihev, ihp, ihm, ihperm, iherr, ihtar, ihfix, ihbad, ihcnt⟩ :=
        ih _ _ hm2 hp2
      have hupd : loop_evolves s1
          (updateItem s1 fid (fun f =>
            { f with scan_complete := true, calculated_size := some 0,
                     last_scanned := some now })) :=
        loop_evolves_update s1 fid _ (fun it => ⟨rfl, rfl, rfl⟩)
      refine ⟨loop_evolves_trans (struct_evolves_to_loop hev)
        (loop_evolves_trans hupd ihev), ihp, ihm, ?_, ?_, ?_, ?_, ?_, ?_⟩
      · refine le_trans ?_ ihperm
        show cs.stats.permission_errors ≤ cs1.stats.permission_errors + 1
        rw [hpermeq]
        exact Nat.le_succ _
      · refine le_trans ?_ iherr
        show cs.stats.errors_encountered ≤ cs1.stats.errors_encountered + 1
        rw [herreq]
        exact Nat.le_succ _
      · intro k hk hexk
        rcases hexk with ⟨it, hit⟩
        rcases struct_evolves_lookup hev k it hit with ⟨it1, hit1, _⟩
        rcases List.mem_cons.mp hk with hkf | hkr
        · subst hkf
          have hlf : lookupItem
              (updateItem s1 k (fun f =>
                { f with scan_complete := true, calculated_size := some 0,
                         last_scanned := some now })) k =
              some { it1 with
                scan_complete := true, calculated_size := some 0,
                last_scanned := some now } :=
            lookupItem_update_self s1 k _ it1 hit1
          rcases loop_evolves_lookup ihev k _ hlf with ⟨it2, hit2, hev2⟩
          exact ⟨it2, hit2, item_evolves_loop_isSome hev2 rfl⟩
        · by_cases hkf : k = fid
          · subst hkf
            have hlf := lookupItem_update_self s1 k (fun f =>
              { f with scan_complete := true, calculated_size := some 0,
                       last_scanned := some now }) it1 hit1
            exact ihtar k hkr ⟨_, hlf⟩
          · have hlf : lookupItem
                (updateItem s1 fid (fun f =>
                  { f with scan_complete := true, calculated_size := some 0,
                           last_scanned := some now })) k = some it1 := by
              rw [lookupItem_update_ne s1 fid _ k hkf]
              exact hit1
            exact ihtar k hkr ⟨it1, hlf⟩
      · intro bad e0 hb hbad
        have hbf : ¬ bad = fid := fun he => hbad (he ▸ List.mem_cons_self fid rest)
        have hbr : ¬ bad ∈ rest := fun he => hbad (List.mem_cons_of_mem fid he)
        rw [ihfix bad e0 hb hbr]
        rw [lookupItem_update_ne s1 fid _ bad hbf]
        exact struct_evolves_fixed_opt hev bad e0 hb
      · intro bad e0 hb hbad hexb
        rcases hexb with ⟨it, hit⟩
        rcases struct_evolves_lookup hev bad it hit with ⟨it1, hit1, _⟩
        rcases List.mem_cons.mp hbad with hbf | hbr
        · subst hbf
          have hlf : lookupItem
              (updateItem s1 bad (fun f =>
                { f with scan_complete := true, calculated_size := some 0,
                         last_scanned := some now })) bad =
              some { it1 with
                scan_complete := true, calculated_size := some 0,
                last_scanned := some now } :=
            lookupItem_update_self s1 bad _ it1 hit1
          by_cases hbr : bad ∈ rest
          · exact ihbad bad e0 hb hbr ⟨_, hlf⟩
          · rw [ihfix bad e0 hb hbr, hlf]
            exact ⟨_, rfl, rfl, rfl⟩
        · by_cases hbf : bad = fid
          · subst hbf
            have hlf := lookupItem_update_self s1 bad (fun f =>
              { f with scan_complete := true, calculated_size := some 0,
                       last_scanned := some now }) it1 hit1
            exact ihbad bad e0 hb hbr ⟨_, hlf⟩
          · have hlf : lookupItem
                (updateItem s1 fid (fun f =>
                  { f with scan_complete := true, calculated_size := some 0,
                           last_scanned := some now })) bad = some it1 := by
              rw [lookupItem_update_ne s1 fid _ bad hbf]
              exact hit1
            exact ihbad bad e0 hb hbr ⟨it1, hlf⟩
      · intro bad e0 hb hbad
        constructor
        · refine le_trans ?_ ihperm
          show 1 ≤ cs1.stats.permission_errors + 1
          exact Nat.succ_le_succ (Nat.zero_le _)
        · refine le_trans ?_ iherr
          show 1 ≤ cs1.stats.errors_encountered + 1
          exact Nat.succ_le_succ (Nat.zero_le _)

/-- After the per-folder loop over the folders selected with
`force_recalculate = False`, every folder entry of the ID map carries a
non-null `calculated_size` (IDs pairwise distinct, as Python dict keys are):
folders that had one keep one, and every folder that had none was selected
and either committed or marked by the permission handler. -/
theorem loop_folders_isSome (fails : String → Option CalcErr)
    (cfg : CacheConfig) (now : Int) (n : Nat)
    (hperm : ∀ k e, fails k = some e → e = CalcErr.permission)
    (s : DriveStructure) (cs : CalcState)
    (hnd : (s.all_items.map Prod.fst).Nodup)
    (hm : memo_ok s cs) (hp : cs.processing_folders = []) :
    ∀ p' ∈ (calculation_loop fails cfg now (n + 1)
        (folders_to_calculate s false) s cs).1.all_items,
      p'.2.is_folder = true → p'.2.calculated_size.isSome = true := by
  obtain ⟨hev, _, _, _, _, htar, _, _, _⟩ :=
    loop_main fails cfg now n hperm (folders_to_calculate s false) s cs hm hp
  intro p' hp' hf'
  rcases loop_evolves_mem_rev hev p' hp' with ⟨p, hpmem, hkey, hevp⟩
  rcases hevp with heq | ⟨hs, _, _⟩
  · by_cases hs0 : p.2.calculated_size.isSome = true
    · rw [heq]
      exact hs0
    · have hfolder : p.2.is_folder = true := by
        rw [heq] at hf'
        exact hf'
      have hnone : p.2.calculated_size = none :=
        Option.not_isSome_iff_eq_none.mp hs0
      have htarm : p.1 ∈ folders_to_calculate s false := by
        unfold folders_to_calculate
        refine List.mem_map.mpr ⟨p, List.mem_filter.mpr ⟨hpmem, ?_⟩, rfl⟩
        simp [hfolder, hnone]
      have hex : ∃ it, lookupItem s p.1 = some it :=
        ⟨p.2, assocFind_of_mem_nodup s.all_items p hpmem hnd⟩
      rcases htar p.1 htarm hex with ⟨it', hl', hs'⟩
      have hnd' : (((calculation_loop fails cfg now (n + 1)
          (folders_to_calculate s false) s cs).1.all_items.map
            Prod.fst)).Nodup := by
        rw [loop_evolves_keys hev]
        exact hnd
      have hlp : lookupItem (calculation_loop fails cfg now (n + 1)
          (folders_to_calculate s false) s cs).1 p'.1 = some p'.2 :=
        assocFind_of_mem_nodup _ p' hp' hnd'
      rw [hkey] at hlp
      rw [hl'] at hlp
      rw [← Option.some.inj hlp]
      exact hs'
  · exact hs

/-- C3: running `calculate_full_drive_sizes` twice in a row on the same
unmodified structure with `force_recalculate = False` (IDs pairwise
distinct, as Python dict keys are) leaves the whole ID map — in particular
every folder's `calculated_size`, `file_count` and `folder_count` —
identical between the two runs, and the second run processes zero folders:
its `processed_items` statistic is zero, every folder being served from the
in-memory freshness check or the caches. -/
theorem claim_C3 (cfg : CacheConfig) (now now2 : Int) (s : DriveStructure)
    (cs : CalcState) (hnd : (s.all_items.map Prod.fst).Nodup) :
    (calculate_full_drive_sizes no_failures cfg now2
        (calculate_full_drive_sizes no_failures cfg now s false cs).1 false
        (calculate_full_drive_sizes no_failures cfg now s false
          cs).2).1.all_items
      = (calculate_full_drive_sizes no_failures cfg now s false
          cs).1.all_items ∧
    (calculate_full_drive_sizes no_failures cfg now2
        (calculate_full_drive_sizes no_failures cfg now s false cs).1 false
        (calculate_full_drive_sizes no_failures cfg now s false
          cs).2).2.stats.processed_items = 0 := by
  have hperm0 : ∀ k e, no_failures k = some e → e = CalcErr.permission := by
    intro k e h
    simp [no_failures] at h
  have hm0 : memo_ok s (reset_stats cs) := by
    intro k v hk
    simp [reset_stats, assocFind] at hk
  have hall := loop_folders_isSome no_failures cfg now s.all_items.length
    hperm0 s (reset_stats cs) hnd hm0 rfl
  have hR1 : (calculate_full_drive_sizes no_failures cfg now s false cs).1 =
      update_structure_stats now (calculation_loop no_failures cfg now (s.all_items.length + 1)
        (folders_to_calculate s false) s (reset_stats cs)).1 := rfl
  have hfilter : ((calculation_loop no_failures cfg now (s.all_items.length + 1)
        (folders_to_calculate s false) s (reset_stats cs)).1.all_items.filter
      (fun p => p.2.is_folder && (false || p.2.calculated_size.isNone)))
      = [] := by
    rw [List.filter_eq_nil_iff]
    intro p hpm
    by_cases hf : p.2.is_folder = true
    · rcases Option.isSome_iff_exists.mp (hall p hpm hf) with ⟨a, ha⟩
      simp [hf, ha]
    · cases hfv : p.2.is_folder with
      | true => exact absurd hfv hf
      | false => simp [hfv]
  have htargets2 : folders_to_calculate
      (calculate_full_drive_sizes no_failures cfg now s false cs).1 false
      = [] := by
    rw [hR1]
    have hunf : folders_to_calculate
        (update_structure_stats now (calculation_loop no_failures cfg now (s.all_items.length + 1)
        (folders_to_calculate s false) s (reset_stats cs)).1) false =
        ((update_structure_stats now (calculation_loop no_failures cfg now (s.all_items.length + 1)
        (folders_to_calculate s false) s (reset_stats cs)).1).all_items.filter
          (fun p => p.2.is_folder && (false || p.2.calculated_size.isNone))).map
          (fun p => p.1) := rfl
    have hfe : (update_structure_stats now (calculation_loop no_failures cfg now (s.all_items.length + 1)
        (folders_to_calculate s false) s (reset_stats cs)).1).all_items
        = (calculation_loop no_failures cfg now (s.all_items.length + 1)
        (folders_to_calculate s false) s (reset_stats cs)).1.all_items := rfl
    rw [hunf, hfe, hfilter]
    rfl
  have e2 : (calculate_full_drive_sizes no_failures cfg now2
      (calculate_full_drive_sizes no_failures cfg now s false cs).1 false
      (calculate_full_drive_sizes no_failures cfg now s false cs).2).1 =
      update_structure_stats now2 (calculation_loop no_failures cfg now2
      ((calculate_full_drive_sizes no_failures cfg now s false
        cs).1.all_items.length + 1)
      (folders_to_calculate (calculate_full_drive_sizes no_failures cfg now s
        false cs).1 false)
      (calculate_full_drive_sizes no_failures cfg now s false cs).1
      (reset_stats (calculate_full_drive_sizes no_failures cfg now s false
        cs).2)).1 := rfl
  have e3 : calculation_loop no_failures cfg now2
      ((calculate_full_drive_sizes no_failures cfg now s false
        cs).1.all_items.length + 1) []
      (calculate_full_drive_sizes no_failures cfg now s false cs).1
      (reset_stats (calculate_full_drive_sizes no_failures cfg now s false
        cs).2) =
      ((calculate_full_drive_sizes no_failures cfg now s false cs).1,
       reset_stats (calculate_full_drive_sizes no_failures cfg now s false
        cs).2) := by
    simp only [calculation_loop]
  constructor
  · rw [e2, htargets2, e3]
    rfl
  · have e4 : (calculate_full_drive_sizes no_failures cfg now2
        (calculate_full_drive_sizes no_failures cfg now s false cs).1 false
        (calculate_full_drive_sizes no_failures cfg now s false cs).2).2 =
        (if cfg.enabled then
          { (calculation_loop no_failures cfg now2
      ((calculate_full_drive_sizes no_failures cfg now s false
        cs).1.all_items.length + 1)
      (folders_to_calculate (calculate_full_drive_sizes no_failures cfg now s
        false cs).1 false)
      (calculate_full_drive_sizes no_failures cfg now s false cs).1
      (reset_stats (calculate_full_drive_sizes no_failures cfg now s false
        cs).2)).2 with
            cache := (cache_structure now2 (calculation_loop no_failures cfg now2
      ((calculate_full_drive_sizes no_failures cfg now s false
        cs).1.all_items.length + 1)
      (folders_to_calculate (calculate_full_drive_sizes no_failures cfg now s
        false cs).1 false)
      (calculate_full_drive_sizes no_failures cfg now s false cs).1
      (reset_stats (calculate_full_drive_sizes no_failures cfg now s false
        cs).2)).2.cache
              (update_structure_stats now2 (calculation_loop no_failures cfg now2
      ((calculate_full_drive_sizes no_failures cfg now s false
        cs).1.all_items.length + 1)
      (folders_to_calculate (calculate_full_drive_sizes no_failures cfg now s
        false cs).1 false)
      (calculate_full_drive_sizes no_failures cfg now s false cs).1
      (reset_stats (calculate_full_drive_sizes no_failures cfg now s false
        cs).2)).1) "full_drive").2 }
        else (calculation_loop no_failures cfg now2
      ((calculate_full_drive_sizes no_failures cfg now s false
        cs).1.all_items.length + 1)
      (folders_to_calculate (calculate_full_drive_sizes no_failures cfg now s
        false cs).1 false)
      (calculate_full_drive_sizes no_failures cfg now s false cs).1
      (reset_stats (calculate_full_drive_sizes no_failures cfg now s false
        cs).2)).2) := rfl
    rw [e4, htargets2, e3]
    cases cfg.enabled <;> rfl

/-- Witness for C3 at a concrete structure: the two-level sample drive with
pairwise-distinct IDs. -/
theorem claim_C3_witness :
    ((s_c2.all_items.map Prod.fst).Nodup) ∧
    ((calculate_full_drive_sizes no_failures cfg_off 0
        (calculate_full_drive_sizes no_failures cfg_off 0 s_c2 false
          cs_off).1 false
        (calculate_full_drive_sizes no_failures cfg_off 0 s_c2 false
          cs_off).2).1.all_items
      = (calculate_full_drive_sizes no_failures cfg_off 0 s_c2 false
          cs_off).1.all_items ∧
    (calculate_full_drive_sizes no_failures cfg_off 0
        (calculate_full_drive_sizes no_failures cfg_off 0 s_c2 false
          cs_off).1 false
        (calculate_full_drive_sizes no_failures cfg_off 0 s_c2 false
          cs_off).2).2.stats.processed_items = 0) :=
  ⟨by decide, claim_C3 cfg_off 0 0 s_c2 cs_off (by decide)⟩

/-- C8: when aggregating one selected folder always raises the permission
error, the whole run still completes: the permission-error counter and the
general error counter each end at least 1, the failing folder ends with
`calculated_size = 0` and `scan_complete = true`, and the remaining folders
are still processed — every folder entry of the final ID map carries a
non-null `calculated_size` (IDs pairwise distinct, as Python dict keys
are). -/
theorem claim_C8 (cfg : CacheConfig) (now : Int) (s : DriveStructure)
    (cs : CalcState) (bad : String)
    (hnd : (s.all_items.map Prod.fst).Nodup)
    (hmem : bad ∈ folders_to_calculate s false) :
    1 ≤ (calculate_full_drive_sizes (fail_one bad) cfg now s false
          cs).2.stats.permission_errors ∧
    1 ≤ (calculate_full_drive_sizes (fail_one bad) cfg now s false
          cs).2.stats.errors_encountered ∧
    (∃ it', lookupItem
        (calculate_full_drive_sizes (fail_one bad) cfg now s false cs).1 bad
      = some it' ∧ it'.calculated_size = some 0 ∧
      it'.scan_complete = true) ∧
    (∀ p' ∈ (calculate_full_drive_sizes (fail_one bad) cfg now s false
        cs).1.all_items, p'.2.is_folder = true →
      p'.2.calculated_size.isSome = true) := by
  have hperm1 : ∀ k e, fail_one bad k = some e → e = CalcErr.permission := by
    intro k e h
    unfold fail_one at h
    by_cases hk : (k == bad) = true
    · rw [if_pos hk] at h
      exact (Option.some.inj h).symm
    · rw [if_neg hk] at h
      cases h
  have hb : fail_one bad bad = some CalcErr.permission := by
    simp [fail_one]
  have hm0 : memo_ok s (reset_stats cs) := by
    intro k v hk
    simp [reset_stats, assocFind] at hk
  obtain ⟨hev, hpL, hmL, hpermL, herrL, htarL, hfixL, hbadL, hcntL⟩ :=
    loop_main (fail_one bad) cfg now s.all_items.length hperm1
      (folders_to_calculate s false) s (reset_stats cs) hm0 rfl
  have hex : ∃ it, lookupItem s bad = some it := by
    have hmem2 := hmem
    unfold folders_to_calculate at hmem2
    rcases List.mem_map.mp hmem2 with ⟨p, hpf, hpk⟩
    have hpm := (List.mem_filter.mp hpf).1
    exact ⟨p.2, by
      rw [← hpk]
      exact assocFind_of_mem_nodup s.all_items p hpm hnd⟩
  have hbadfin := hbadL bad CalcErr.permission hb hmem hex
  have hcnt := hcntL bad CalcErr.permission hb hmem
  have hstats : (calculate_full_drive_sizes (fail_one bad) cfg now s false
      cs).2.stats = (calculation_loop (fail_one bad) cfg now (s.all_items.length + 1)
      (folders_to_calculate s false) s (reset_stats cs)).2.stats := by
    have e2 : (calculate_full_drive_sizes (fail_one bad) cfg now s false
        cs).2 =
        (if cfg.enabled then
          { (calculation_loop (fail_one bad) cfg now (s.all_items.length + 1)
      (folders_to_calculate s false) s (reset_stats cs)).2 with
            cache := (cache_structure now (calculation_loop (fail_one bad) cfg now (s.all_items.length + 1)
      (folders_to_calculate s false) s (reset_stats cs)).2.cache
              (update_structure_stats now (calculation_loop (fail_one bad) cfg now (s.all_items.length + 1)
      (folders_to_calculate s false) s (reset_stats cs)).1) "full_drive").2 }
        else (calculation_loop (fail_one bad) cfg now (s.all_items.length + 1)
      (folders_to_calculate s false) s (reset_stats cs)).2) := rfl
    rw [e2]
    cases cfg.enabled <;> rfl
  refine ⟨?_, ?_, ?_, ?_⟩
  · rw [hstats]
    exact hcnt.1
  · rw [hstats]
    exact hcnt.2
  · have hlook : lookupItem
        (calculate_full_drive_sizes (fail_one bad) cfg now s false cs).1 bad
        = lookupItem (calculation_loop (fail_one bad) cfg now (s.all_items.length + 1)
      (folders_to_calculate s false) s (reset_stats cs)).1 bad := rfl
    rw [hlook]
    exact hbadfin
  · have hai : (calculate_full_drive_sizes (fail_one bad) cfg now s false
        cs).1.all_items = (calculation_loop (fail_one bad) cfg now (s.all_items.length + 1)
      (folders_to_calculate s false) s (reset_stats cs)).1.all_items := rfl
    rw [hai]
    exact loop_folders_isSome (fail_one bad) cfg now s.all_items.length
      hperm1 s (reset_stats cs) hnd hm0 rfl

/-- Witness for C8 at a concrete structure: two sibling folders, one made to
always raise the permission error. -/
theorem claim_C8_witness :
    ((s_c8.all_items.map Prod.fst).Nodup ∧
      "bad" ∈ folders_to_calculate s_c8 false) ∧
    (1 ≤ (calculate_full_drive_sizes (fail_one "bad") cfg_off 0 s_c8 false
          cs_off).2.stats.permission_errors ∧
    1 ≤ (calculate_full_drive_sizes (fail_one "bad") cfg_off 0 s_c8 false
          cs_off).2.stats.errors_encountered ∧
    (∃ it', lookupItem
        (calculate_full_drive_sizes (fail_one "bad") cfg_off 0 s_c8 false
          cs_off).1 "bad"
      = some it' ∧ it'.calculated_size = some 0 ∧
      it'.scan_complete = true) ∧
    (∀ p' ∈ (calculate_full_drive_sizes (fail_one "bad") cfg_off 0 s_c8 false
        cs_off).1.all_items, p'.2.is_folder = true →
      p'.2.calculated_size.isSome = true)) :=
  ⟨⟨by decide, by decide⟩,
   claim_C8 cfg_off 0 s_c8 cs_off "bad" (by decide) (by decide)⟩

end GDrive
